import Mathlib

/-!
# gedit panel (`gedit-panel.c`): embedding and contract

The panel is a thin layer over a toolkit notebook.  The state below holds what the C code
reads and writes: the private fields of `GeditPanel`, the notebook it owns, and the
`GeditPanelItem` record that the panel attaches to each item widget under `PANEL_ITEM_KEY`.

The toolkit is not part of `gedit-panel.c`.  Its notebook is modelled by its documented
contract: an ordered sequence of child widgets, one of which is the current page, and a
`switch-page` notification whenever the current page changes.  What the model takes from the
toolkit:

* a page is appended after the existing pages, whatever the child, and the first page of an
  empty notebook becomes the current page;
* removing the current page makes a neighbouring page current, or none when no page is left;
* item widgets are visible (`gedit_panel_add_item` shows them), so a page can always be made
  current.

Rendering, sizing, focus and the `item_added` / `item_removed` / `close` / `focus_document`
signals have no effect on the state described here and are left out.

C pointers that may be `NULL` are `Option`; `gint` results are `Int`; `gboolean` is `Bool`.
Arguments that the C functions reject with `g_return_val_if_fail` (a `NULL` panel, widget, id
or display name) are excluded by the types.
-/

namespace Gedit

/-! ## Toolkit data -/

/-- Identity of a widget object (the address held in a `GtkWidget *`). -/
abbrev GtkWidget := Nat

/-- Orientation of a panel, `GtkOrientation`. -/
inductive GtkOrientation
  | HORIZONTAL
  | VERTICAL
  deriving DecidableEq

/-- Symbolic icon sizes, `GtkIconSize`. -/
inductive GtkIconSize
  | INVALID
  | MENU
  | SMALL_TOOLBAR
  | LARGE_TOOLBAR
  | BUTTON
  | DND
  | DIALOG
  deriving DecidableEq

/-- Content of a `GtkImage`, one constructor per storage type `GtkImageType`.  Pixel data,
icon sets, animations, `GIcon`s and surfaces are identified by a number. -/
inductive GtkImage
  | EMPTY
  | PIXBUF (pb : Nat)
  | STOCK (stock_id : String) (size : GtkIconSize)
  | ICON_SET (icon_set : Nat) (size : GtkIconSize)
  | ANIMATION (a : Nat)
  | ICON_NAME (n : String) (size : GtkIconSize)
  | GICON (g : Nat) (size : GtkIconSize)
  | SURFACE (s : Nat)
  deriving DecidableEq

/-- Notebook state: the child widgets in tab order and the current page.  The toolkit tracks
the current page by identity (`none` when the notebook has no current page), so it stays on the
same child when pages before it are removed. -/
structure GtkNotebook where
  children : List GtkWidget
  cur_page : Option GtkWidget
  deriving DecidableEq

/-- Number of pages, `gtk_notebook_get_n_pages`. -/
def gtk_notebook_get_n_pages (nb : GtkNotebook) : Int :=
  nb.children.length

/-- Index of the page holding `child`, or `-1` when `child` is not in the notebook,
`gtk_notebook_page_num`. -/
def gtk_notebook_page_num (nb : GtkNotebook) (child : GtkWidget) : Int :=
  if child ∈ nb.children then (nb.children.indexOf child : Int) else -1

/-- Index of the current page, or `-1` when there is none, `gtk_notebook_get_current_page`. -/
def gtk_notebook_get_current_page (nb : GtkNotebook) : Int :=
  match nb.cur_page with
  | none => -1
  | some w => gtk_notebook_page_num nb w

/-- Child of page `page_num`; a negative index asks for the last page; `none` (NULL) when the
index is out of bounds, `gtk_notebook_get_nth_page`. -/
def gtk_notebook_get_nth_page (nb : GtkNotebook) (page_num : Int) : Option GtkWidget :=
  if page_num < 0 then nb.children.getLast? else nb.children[page_num.toNat]?

/-- A notebook operation yields the new notebook and, when the current page changed, the page
number carried by the `switch-page` signal. -/
abbrev NotebookResult := GtkNotebook × Option Int

/-- Append a page holding `child` after the existing pages, `gtk_notebook_append_page_menu`
(tab and menu labels are presentation only).  The first page of an empty notebook becomes the
current page. -/
def gtk_notebook_append_page_menu (nb : GtkNotebook) (child : GtkWidget) : NotebookResult :=
  match nb.cur_page with
  | none =>
    ({ children := nb.children ++ [child], cur_page := some child },
      some (nb.children.length : Int))
  | some c => ({ children := nb.children ++ [child], cur_page := some c }, none)

/-- Switch to page `page_num` (negative: the last page), `gtk_notebook_set_current_page`.
Nothing happens when the index is out of bounds or the page is already current. -/
def gtk_notebook_set_current_page (nb : GtkNotebook) (page_num : Int) : NotebookResult :=
  match gtk_notebook_get_nth_page nb page_num with
  | none => (nb, none)
  | some w =>
    if nb.cur_page = some w then (nb, none)
    else
      ({ children := nb.children, cur_page := some w },
        some (if page_num < 0 then (nb.children.length : Int) - 1 else page_num))

/-- Remove page `page_num` (negative: the last page), `gtk_notebook_remove_page`.  When the
removed page was the current one the notebook switches to the page that followed it, or to the
one before it when it was the last, and has no current page when it becomes empty. -/
def gtk_notebook_remove_page (nb : GtkNotebook) (page_num : Int) : NotebookResult :=
  match gtk_notebook_get_nth_page nb page_num with
  | none => (nb, none)
  | some w =>
    let i := if page_num < 0 then nb.children.length - 1 else page_num.toNat
    let rest := nb.children.eraseIdx i
    if nb.cur_page = some w then
      match rest[i]? with
      | some next => ({ children := rest, cur_page := some next }, some (i : Int))
      | none =>
        match rest.getLast? with
        | some prev => ({ children := rest, cur_page := some prev }, some ((rest.length : Int) - 1))
        | none => ({ children := rest, cur_page := none }, none)
    else ({ children := rest, cur_page := nb.cur_page }, none)

/-- The signed value of a byte read through a `const signed char *`, modulo `2^32`. -/
def signed_char (c : UInt8) : Nat :=
  if c.toNat < 128 then c.toNat else c.toNat + 2 ^ 32 - 256

/-- GLib string hash `g_str_hash` (the "djb" hash): a 32 bit unsigned value that starts at 5381
and is updated with `h = (h << 5) + h + c` for the signed value `c` of each byte (of the UTF-8
encoding of the string) up to the terminating NUL. -/
def g_str_hash (v : String) : Nat :=
  ((v.toList.flatMap String.utf8EncodeChar).takeWhile (fun c => c ≠ 0)).foldl
    (fun h c => (h * 32 + h + signed_char c) % 2 ^ 32) 5381

/-! ## Panel data -/

/-- Identity record of an item, `struct _GeditPanelItem`.  The icon widget is represented by
the image it holds. -/
structure GeditPanelItem where
  id : String
  display_name : String
  icon : GtkImage
  deriving DecidableEq

/-- Panel state: the fields of `struct _GeditPanelPrivate` that carry state (the title widgets
are `NULL` in a horizontal panel; the title image and label are represented by their content),
and `panel_item_key`, the record stored on each widget with
`g_object_set_data (item, PANEL_ITEM_KEY, data)`. -/
structure GeditPanel where
  orientation : GtkOrientation
  title_image : Option GtkImage
  title_label : Option String
  notebook : GtkNotebook
  panel_item_key : GtkWidget → Option GeditPanelItem

/-! ## Title bar -/

/-- Copy the content of `source` into `image` by storage type, `set_gtk_image_from_gtk_image`:
the result is the new content of `image`. -/
def set_gtk_image_from_gtk_image (image source : GtkImage) : GtkImage :=
  match image, source with
  | _, GtkImage.EMPTY => GtkImage.EMPTY
  | _, GtkImage.PIXBUF pb => GtkImage.PIXBUF pb
  | _, GtkImage.STOCK s_id s => GtkImage.STOCK s_id s
  | _, GtkImage.ICON_SET is s => GtkImage.ICON_SET is s
  | _, GtkImage.ANIMATION a => GtkImage.ANIMATION a
  | _, GtkImage.ICON_NAME n s => GtkImage.ICON_NAME n s
  | _, _ => GtkImage.ICON_NAME "text-x-generic" GtkIconSize.MENU

/-- Show `item` in the title bar, or the empty title when `item` is `none`; does nothing in a
panel that is not vertical, `sync_title`.  A title widget that does not exist stays absent. -/
def sync_title (panel : GeditPanel) (item : Option GeditPanelItem) : GeditPanel :=
  if panel.orientation ≠ GtkOrientation.VERTICAL then panel
  else
    match item with
    | some item =>
      { panel with
        title_label := panel.title_label.map (fun _ => item.display_name)
        title_image := panel.title_image.map (fun image =>
          set_gtk_image_from_gtk_image image item.icon) }
    | none =>
      { panel with
        title_label := panel.title_label.map (fun _ => "Empty")
        title_image := panel.title_image.map (fun _ =>
          GtkImage.ICON_NAME "text-x-generic" GtkIconSize.MENU) }

/-- Handler of the notebook's `switch-page` signal, `notebook_page_changed`: the title follows
the item on page `page_num`. -/
def notebook_page_changed (panel : GeditPanel) (page_num : Int) : GeditPanel :=
  match gtk_notebook_get_nth_page panel.notebook page_num with
  | none => panel
  | some item =>
    match panel.panel_item_key item with
    | none => panel
    | some data => sync_title panel (some data)

/-- Handler of the panel's `show` signal, `panel_show`: the title is brought up to date with
the current page, if there is one. -/
def panel_show (panel : GeditPanel) : GeditPanel :=
  let page := gtk_notebook_get_current_page panel.notebook
  if page ≠ -1 then notebook_page_changed panel page else panel

/-- Store the outcome of a notebook operation in the panel and run the `switch-page` handler
when the operation emitted the signal. -/
def notebook_update (panel : GeditPanel) (r : NotebookResult) : GeditPanel :=
  match r.2 with
  | none => { panel with notebook := r.1 }
  | some page_num => notebook_page_changed { panel with notebook := r.1 } page_num

/-! ## Public operations -/

/-- A new panel, `gedit_panel_new` followed by `gedit_panel_constructed`: an empty notebook and,
for a vertical panel, the title bar with the generic icon and the label "Empty".  No widget
carries a panel record yet. -/
def gedit_panel_new (orientation : GtkOrientation) : GeditPanel :=
  match orientation with
  | GtkOrientation.HORIZONTAL =>
    { orientation := orientation
      title_image := none
      title_label := none
      notebook := { children := [], cur_page := none }
      panel_item_key := fun _ => none }
  | GtkOrientation.VERTICAL =>
    { orientation := orientation
      title_image := some (GtkImage.ICON_NAME "text-x-generic" GtkIconSize.MENU)
      title_label := some "Empty"
      notebook := { children := [], cur_page := none }
      panel_item_key := fun _ => none }

/-- The loop of `item_exists` over the notebook's children: stops with `FALSE` at a child that
has no record (`g_return_val_if_fail`), with `TRUE` at the first child whose id equals `id`. -/
def item_exists_loop (panel : GeditPanel) (id : String) : List GtkWidget → Bool
  | [] => false
  | l :: rest =>
    match panel.panel_item_key l with
    | none => false
    | some data => if data.id = id then true else item_exists_loop panel id rest

/-- Whether a child of the notebook has the id `id`, `item_exists`. -/
def item_exists (panel : GeditPanel) (id : String) : Bool :=
  item_exists_loop panel id panel.notebook.children

/-- Add `item` under `id`, `gedit_panel_add_item`: refused (`FALSE`, nothing changes) when the
id exists; otherwise the record is stored on the widget, the widget is appended to the notebook
and the result is `TRUE`.  The result of `gtk_notebook_append_page_menu` is not looked at. -/
def gedit_panel_add_item (panel : GeditPanel) (item : GtkWidget) (id display_name : String)
    (image : Option GtkImage) : Bool × GeditPanel :=
  if item_exists panel id then (false, panel)
  else
    let data : GeditPanelItem :=
      { id := id
        display_name := display_name
        icon :=
          match image with
          | none => GtkImage.ICON_NAME "text-x-generic" GtkIconSize.MENU
          | some image => image }
    let panel1 := { panel with panel_item_key := Function.update panel.panel_item_key item (some data) }
    (true, notebook_update panel1 (gtk_notebook_append_page_menu panel1.notebook item))

/-- Same as `gedit_panel_add_item` with an image made from a stock id,
`gedit_panel_add_item_with_stock_icon`. -/
def gedit_panel_add_item_with_stock_icon (panel : GeditPanel) (item : GtkWidget)
    (id display_name : String) (stock_id : Option String) : Bool × GeditPanel :=
  let icon : Option GtkImage :=
    match stock_id with
    | none => none
    | some stock_id => some (GtkImage.STOCK stock_id GtkIconSize.MENU)
  gedit_panel_add_item panel item id display_name icon

/-- Remove `item`, `gedit_panel_remove_item`: `FALSE` and no change when the widget is not a
page of the notebook (or carries no record); otherwise the record is freed, the page is removed,
the title is reset when no page is left, and the result is `TRUE`. -/
def gedit_panel_remove_item (panel : GeditPanel) (item : GtkWidget) : Bool × GeditPanel :=
  let page_num := gtk_notebook_page_num panel.notebook item
  if page_num = -1 then (false, panel)
  else
    match panel.panel_item_key item with
    | none => (false, panel)
    | some _ =>
      let panel1 := { panel with panel_item_key := Function.update panel.panel_item_key item none }
      let panel2 := notebook_update panel1 (gtk_notebook_remove_page panel1.notebook page_num)
      if gtk_notebook_get_n_pages panel2.notebook = 0 then (true, sync_title panel2 none)
      else (true, panel2)

/-- Switch to the page that contains `item`, `gedit_panel_activate_item`. -/
def gedit_panel_activate_item (panel : GeditPanel) (item : GtkWidget) : Bool × GeditPanel :=
  let page_num := gtk_notebook_page_num panel.notebook item
  if page_num = -1 then (false, panel)
  else (true, notebook_update panel (gtk_notebook_set_current_page panel.notebook page_num))

/-- The active item, `NULL` when the notebook has no current page, `gedit_panel_get_active`. -/
def gedit_panel_get_active (panel : GeditPanel) : Option GtkWidget :=
  let current := gtk_notebook_get_current_page panel.notebook
  if current = -1 then none
  else gtk_notebook_get_nth_page panel.notebook current

/-- Whether `item` is the active widget, `gedit_panel_item_is_active`. -/
def gedit_panel_item_is_active (panel : GeditPanel) (item : GtkWidget) : Bool :=
  let page_num := gtk_notebook_page_num panel.notebook item
  if page_num = -1 then false
  else
    let cur_page := gtk_notebook_get_current_page panel.notebook
    decide (page_num = cur_page)

/-- Orientation of the panel, `gedit_panel_get_orientation`. -/
def gedit_panel_get_orientation (panel : GeditPanel) : GtkOrientation :=
  panel.orientation

/-- Number of items, `gedit_panel_get_n_items`. -/
def gedit_panel_get_n_items (panel : GeditPanel) : Int :=
  gtk_notebook_get_n_pages panel.notebook

/-- Conversion of a `guint` to `gint` (two's complement, 32 bits). -/
def guint_to_gint (h : Nat) : Int :=
  if h % 2 ^ 32 < 2 ^ 31 then ((h % 2 ^ 32 : Nat) : Int) else ((h % 2 ^ 32 : Nat) : Int) - 2 ^ 32

/-- Conversion of a `gint` to `guint`, as in the comparison `g_str_hash (data->id) == id`. -/
def gint_to_guint (id : Int) : Nat :=
  (id % 2 ^ 32).toNat

/-- Stable id of the active item: the hash of its id string as a `gint`, `0` when there is no
active item (or it has no record), `_gedit_panel_get_active_item_id`. -/
def _gedit_panel_get_active_item_id (panel : GeditPanel) : Int :=
  let cur_page := gtk_notebook_get_current_page panel.notebook
  if cur_page = -1 then 0
  else
    match gtk_notebook_get_nth_page panel.notebook cur_page with
    | none => 0
    | some item =>
      match panel.panel_item_key item with
      | none => 0
      | some data => guint_to_gint (g_str_hash data.id)

/-- The loop `for (i = 0; i < n; i++)` of `_gedit_panel_set_active_item_by_id`, entered at
index `i` with `k = n - i` iterations left: the first page whose id hashes to `id` becomes the
current page; a page without record ends the loop. -/
def set_active_item_by_id_loop (panel : GeditPanel) (id : Int) : Nat → Nat → GeditPanel
  | _, 0 => panel
  | i, k + 1 =>
    match gtk_notebook_get_nth_page panel.notebook (i : Int) with
    | none => panel
    | some item =>
      match panel.panel_item_key item with
      | none => panel
      | some data =>
        if g_str_hash data.id = gint_to_guint id then
          notebook_update panel (gtk_notebook_set_current_page panel.notebook (i : Int))
        else set_active_item_by_id_loop panel id (i + 1) k

/-- Activate the item whose stable id is `id`; `0` stands for "no item" and does nothing,
`_gedit_panel_set_active_item_by_id`. -/
def _gedit_panel_set_active_item_by_id (panel : GeditPanel) (id : Int) : GeditPanel :=
  if id = 0 then panel
  else
    let n := gtk_notebook_get_n_pages panel.notebook
    set_active_item_by_id_loop panel id 0 n.toNat

/-! ## Panel states -/

/-- The id string under which `w` is registered, `none` for a widget without record. -/
def item_id (panel : GeditPanel) (w : GtkWidget) : Option String :=
  (panel.panel_item_key w).map (fun data => data.id)

/-- The hash of the id under which `w` is registered. -/
def item_hash (panel : GeditPanel) (w : GtkWidget) : Option Nat :=
  (item_id panel w).map g_str_hash

/-- Some item present in the panel has the id `s`. -/
def id_present (panel : GeditPanel) (s : String) : Prop :=
  ∃ w ∈ panel.notebook.children, item_id panel w = some s

instance (panel : GeditPanel) (s : String) : Decidable (id_present panel s) := by
  unfold id_present
  infer_instance

/-- Consistency of a panel state: no widget is on two pages, every page carries its
`GeditPanelItem` record, the current page is one of the pages, and there is a current page
as soon as there is a page.  The public operations keep a state of this kind, provided no
widget is added while it is already a page (`reachable_fresh_invariant`). -/
structure Valid (panel : GeditPanel) : Prop where
  nodup : panel.notebook.children.Nodup
  has_record : ∀ w ∈ panel.notebook.children, (panel.panel_item_key w).isSome = true
  cur_mem : ∀ c, panel.notebook.cur_page = some c → c ∈ panel.notebook.children
  cur_some : panel.notebook.children ≠ [] → panel.notebook.cur_page ≠ none

instance (panel : GeditPanel) : Decidable (Valid panel) :=
  decidable_of_iff
    (panel.notebook.children.Nodup ∧
      (∀ w ∈ panel.notebook.children, (panel.panel_item_key w).isSome = true) ∧
      (∀ c ∈ panel.notebook.cur_page, c ∈ panel.notebook.children) ∧
      (panel.notebook.children ≠ [] → panel.notebook.cur_page ≠ none))
    ⟨fun h => ⟨h.1, h.2.1, fun c hc => h.2.2.1 c hc, h.2.2.2⟩,
     fun h => ⟨h.nodup, h.has_record, fun c hc => h.cur_mem c hc, h.cur_some⟩⟩

/-- The ids of the pages in tab order. -/
def panel_ids (panel : GeditPanel) : List (Option String) :=
  panel.notebook.children.map (item_id panel)

/-- Two page widgets with the same id are the same widget. -/
def UniqueIds (panel : GeditPanel) : Prop :=
  ∀ w1 ∈ panel.notebook.children, ∀ w2 ∈ panel.notebook.children,
    item_id panel w1 = item_id panel w2 → w1 = w2

/-- States that a client can build: a new panel, followed by any sequence of calls of the
operations that change a panel. -/
inductive Reachable : GeditPanel → Prop
  | new (orientation : GtkOrientation) : Reachable (gedit_panel_new orientation)
  | add_item (panel : GeditPanel) (item : GtkWidget) (id display_name : String)
      (image : Option GtkImage) :
      Reachable panel → Reachable (gedit_panel_add_item panel item id display_name image).2
  | add_item_with_stock_icon (panel : GeditPanel) (item : GtkWidget) (id display_name : String)
      (stock_id : Option String) :
      Reachable panel →
      Reachable (gedit_panel_add_item_with_stock_icon panel item id display_name stock_id).2
  | remove_item (panel : GeditPanel) (item : GtkWidget) :
      Reachable panel → Reachable (gedit_panel_remove_item panel item).2
  | activate_item (panel : GeditPanel) (item : GtkWidget) :
      Reachable panel → Reachable (gedit_panel_activate_item panel item).2
  | set_active_item_by_id (panel : GeditPanel) (id : Int) :
      Reachable panel → Reachable (_gedit_panel_set_active_item_by_id panel id)

/-- States built from a new panel by calls that never add a widget while it is already a page
of the panel. -/
inductive ReachableFresh : GeditPanel → Prop
  | new (orientation : GtkOrientation) : ReachableFresh (gedit_panel_new orientation)
  | add_item (panel : GeditPanel) (item : GtkWidget) (id display_name : String)
      (image : Option GtkImage) :
      ReachableFresh panel → item ∉ panel.notebook.children →
      ReachableFresh (gedit_panel_add_item panel item id display_name image).2
  | add_item_with_stock_icon (panel : GeditPanel) (item : GtkWidget) (id display_name : String)
      (stock_id : Option String) :
      ReachableFresh panel → item ∉ panel.notebook.children →
      ReachableFresh (gedit_panel_add_item_with_stock_icon panel item id display_name stock_id).2
  | remove_item (panel : GeditPanel) (item : GtkWidget) :
      ReachableFresh panel → ReachableFresh (gedit_panel_remove_item panel item).2
  | activate_item (panel : GeditPanel) (item : GtkWidget) :
      ReachableFresh panel → ReachableFresh (gedit_panel_activate_item panel item).2
  | set_active_item_by_id (panel : GeditPanel) (id : Int) :
      ReachableFresh panel → ReachableFresh (_gedit_panel_set_active_item_by_id panel id)

/-! ## Example states -/

/-- A vertical panel with the single item `1` (id "a", name "Alpha"). -/
def panel_a : GeditPanel :=
  (gedit_panel_add_item (gedit_panel_new GtkOrientation.VERTICAL) 1 "a" "Alpha" none).2

/-- The panel `panel_a` after adding the item `2` (id "b", name "Beta"); item `1` is active. -/
def panel_ab : GeditPanel :=
  (gedit_panel_add_item panel_a 2 "b" "Beta" none).2

/-- A vertical panel with the pages `1` (id "bA") and `2` (id "ab"), the two ids having the
same hash, in which item `2` has been activated. -/
def panel_collide : GeditPanel :=
  (gedit_panel_activate_item
    (gedit_panel_add_item
      (gedit_panel_add_item (gedit_panel_new GtkOrientation.VERTICAL) 1 "bA" "First" none).2
      2 "ab" "Second" none).2 2).2

/-- The panel `panel_collide` after adding item `3` (id "c") and removing item `2`: the pages
are `1` and `3`, item `3` is active and no item has the id "ab". -/
def panel_collide_removed : GeditPanel :=
  (gedit_panel_remove_item (gedit_panel_add_item panel_collide 3 "c" "Third" none).2 2).2

/-- A vertical panel with the pages `1` (id "a") and `2` (id "agmtavdw", whose hash is 0);
item `1` is active. -/
def panel_zero : GeditPanel :=
  (gedit_panel_add_item panel_a 2 "agmtavdw" "Zero" none).2

/-- A vertical panel whose single item `1` was added with the stock icon "gtk-open". -/
def panel_stock : GeditPanel :=
  (gedit_panel_add_item_with_stock_icon (gedit_panel_new GtkOrientation.VERTICAL)
    1 "a" "Alpha" (some "gtk-open")).2

/-- The panel `panel_a` after adding its item `1` a second time, under the id "b": the widget
is on two pages and its record now carries the id "b". -/
def panel_twice : GeditPanel :=
  (gedit_panel_add_item panel_a 1 "b" "Beta" none).2

/-- The panel `panel_twice` after removing item `1` once and adding the widgets `2` and `3`,
both under the id "b". -/
def panel_same_id : GeditPanel :=
  (gedit_panel_add_item
    (gedit_panel_add_item (gedit_panel_remove_item panel_twice 1).2 2 "b" "Second" none).2
    3 "b" "Third" none).2

/-! ## Title bar state -/

/-- Storage types of an image, `GtkImageType`. -/
inductive GtkImageType
  | GTK_IMAGE_EMPTY
  | GTK_IMAGE_PIXBUF
  | GTK_IMAGE_STOCK
  | GTK_IMAGE_ICON_SET
  | GTK_IMAGE_ANIMATION
  | GTK_IMAGE_ICON_NAME
  | GTK_IMAGE_GICON
  | GTK_IMAGE_SURFACE
  deriving DecidableEq

/-- Storage type of an image, `gtk_image_get_storage_type`. -/
def gtk_image_get_storage_type (image : GtkImage) : GtkImageType :=
  match image with
  | GtkImage.EMPTY => GtkImageType.GTK_IMAGE_EMPTY
  | GtkImage.PIXBUF _ => GtkImageType.GTK_IMAGE_PIXBUF
  | GtkImage.STOCK _ _ => GtkImageType.GTK_IMAGE_STOCK
  | GtkImage.ICON_SET _ _ => GtkImageType.GTK_IMAGE_ICON_SET
  | GtkImage.ANIMATION _ => GtkImageType.GTK_IMAGE_ANIMATION
  | GtkImage.ICON_NAME _ _ => GtkImageType.GTK_IMAGE_ICON_NAME
  | GtkImage.GICON _ _ => GtkImageType.GTK_IMAGE_GICON
  | GtkImage.SURFACE _ => GtkImageType.GTK_IMAGE_SURFACE

/-- The generic icon of the empty title, "text-x-generic" at menu size. -/
def generic_icon : GtkImage :=
  GtkImage.ICON_NAME "text-x-generic" GtkIconSize.MENU

/-- The title widgets exist: `build_vertical_panel` creates the title image and the title label
of a vertical panel, and they stay for the lifetime of the panel (`reachable_title_bar`). -/
def TitleBar (panel : GeditPanel) : Prop :=
  panel.orientation = GtkOrientation.VERTICAL →
    panel.title_label.isSome = true ∧ panel.title_image.isSome = true

instance (panel : GeditPanel) : Decidable (TitleBar panel) := by
  unfold TitleBar
  infer_instance

/-! ## Notebook facts -/

theorem page_num_eq_neg_one_iff (nb : GtkNotebook) (w : GtkWidget) :
    gtk_notebook_page_num nb w = -1 ↔ w ∉ nb.children := by
  unfold gtk_notebook_page_num
  split
  · rename_i h
    constructor
    · intro h1
      omega
    · intro h1
      exact absurd h h1
  · rename_i h
    simp [h]

theorem page_num_of_mem (nb : GtkNotebook) (w : GtkWidget) (h : w ∈ nb.children) :
    gtk_notebook_page_num nb w = (nb.children.indexOf w : Int) := by
  simp [gtk_notebook_page_num, h]

theorem get_nth_page_natCast (nb : GtkNotebook) (i : Nat) :
    gtk_notebook_get_nth_page nb (i : Int) = nb.children[i]? := by
  unfold gtk_notebook_get_nth_page
  rw [if_neg (by omega)]
  simp

theorem get_nth_page_page_num (nb : GtkNotebook) (w : GtkWidget) (h : w ∈ nb.children) :
    gtk_notebook_get_nth_page nb (gtk_notebook_page_num nb w) = some w := by
  rw [page_num_of_mem nb w h, get_nth_page_natCast]
  exact List.getElem?_indexOf h

theorem get_current_page_of_none (nb : GtkNotebook) (h : nb.cur_page = none) :
    gtk_notebook_get_current_page nb = -1 := by
  unfold gtk_notebook_get_current_page
  rw [h]

theorem get_current_page_of_some (nb : GtkNotebook) (c : GtkWidget) (h : nb.cur_page = some c) :
    gtk_notebook_get_current_page nb = gtk_notebook_page_num nb c := by
  unfold gtk_notebook_get_current_page
  rw [h]

/-! ## The title bar and the signal handler leave the notebook and the records alone -/

@[simp] theorem sync_title_notebook (panel : GeditPanel) (item : Option GeditPanelItem) :
    (sync_title panel item).notebook = panel.notebook := by
  unfold sync_title
  split
  · rfl
  · cases item <;> rfl

@[simp] theorem sync_title_panel_item_key (panel : GeditPanel) (item : Option GeditPanelItem) :
    (sync_title panel item).panel_item_key = panel.panel_item_key := by
  unfold sync_title
  split
  · rfl
  · cases item <;> rfl

@[simp] theorem notebook_page_changed_notebook (panel : GeditPanel) (page_num : Int) :
    (notebook_page_changed panel page_num).notebook = panel.notebook := by
  unfold notebook_page_changed
  split
  · rfl
  · split
    · rfl
    · simp

@[simp] theorem notebook_page_changed_panel_item_key (panel : GeditPanel) (page_num : Int) :
    (notebook_page_changed panel page_num).panel_item_key = panel.panel_item_key := by
  unfold notebook_page_changed
  split
  · rfl
  · split
    · rfl
    · simp

@[simp] theorem notebook_update_notebook (panel : GeditPanel) (r : NotebookResult) :
    (notebook_update panel r).notebook = r.1 := by
  unfold notebook_update
  split <;> simp

@[simp] theorem notebook_update_panel_item_key (panel : GeditPanel) (r : NotebookResult) :
    (notebook_update panel r).panel_item_key = panel.panel_item_key := by
  unfold notebook_update
  split <;> simp

theorem notebook_update_unchanged (panel : GeditPanel) :
    notebook_update panel (panel.notebook, none) = panel := by
  rfl

/-! ## Queries -/

theorem get_active_eq_some_iff (panel : GeditPanel) (w : GtkWidget) :
    gedit_panel_get_active panel = some w ↔
      panel.notebook.cur_page = some w ∧ w ∈ panel.notebook.children := by
  unfold gedit_panel_get_active gtk_notebook_get_current_page
  cases hc : panel.notebook.cur_page with
  | none => simp
  | some c =>
    by_cases hm : c ∈ panel.notebook.children
    · have h1 : gtk_notebook_page_num panel.notebook c ≠ -1 := by
        rw [Ne, page_num_eq_neg_one_iff]
        exact not_not.mpr hm
      simp only [h1, if_false, get_nth_page_page_num panel.notebook c hm, Option.some.injEq]
      constructor
      · intro h
        subst h
        exact ⟨rfl, hm⟩
      · intro h
        exact h.1
    · have h1 : gtk_notebook_page_num panel.notebook c = -1 :=
        (page_num_eq_neg_one_iff _ _).mpr hm
      simp only [h1, if_true, Option.some.injEq]
      constructor
      · intro h
        cases h
      · intro h
        rw [h.1] at hm
        exact absurd h.2 hm

theorem get_active_eq_none_of_nil (panel : GeditPanel) (h : panel.notebook.children = []) :
    gedit_panel_get_active panel = none := by
  cases hg : gedit_panel_get_active panel with
  | none => rfl
  | some w =>
    have hw := ((get_active_eq_some_iff panel w).mp hg).2
    rw [h] at hw
    cases hw

theorem item_is_active_iff (panel : GeditPanel) (w : GtkWidget) :
    gedit_panel_item_is_active panel w = true ↔
      w ∈ panel.notebook.children ∧ panel.notebook.cur_page = some w := by
  unfold gedit_panel_item_is_active
  by_cases hw : w ∈ panel.notebook.children
  · have h1 : gtk_notebook_page_num panel.notebook w ≠ -1 := by
      rw [Ne, page_num_eq_neg_one_iff]
      exact not_not.mpr hw
    simp only [h1, if_false, decide_eq_true_eq, hw, true_and]
    cases hc : panel.notebook.cur_page with
    | none =>
      rw [get_current_page_of_none _ hc]
      simp [h1]
    | some c =>
      rw [get_current_page_of_some _ c hc]
      by_cases hm : c ∈ panel.notebook.children
      · rw [page_num_of_mem _ _ hw, page_num_of_mem _ _ hm]
        constructor
        · intro h
          have h2 : List.indexOf w panel.notebook.children =
              List.indexOf c panel.notebook.children := by
            exact_mod_cast h
          rw [(List.indexOf_inj hw hm).mp h2]
        · intro h
          cases h
          rfl
      · have h2 : gtk_notebook_page_num panel.notebook c = -1 :=
          (page_num_eq_neg_one_iff _ _).mpr hm
        rw [h2]
        constructor
        · intro h
          exact absurd h h1
        · intro h
          cases h
          exact absurd hw hm
  · have h1 : gtk_notebook_page_num panel.notebook w = -1 :=
      (page_num_eq_neg_one_iff _ _).mpr hw
    simp [h1, hw]

/-! ## Adding -/

theorem item_exists_loop_eq_false (panel : GeditPanel) (s : String) (l : List GtkWidget)
    (h : ∀ w ∈ l, item_id panel w ≠ some s) : item_exists_loop panel s l = false := by
  induction l with
  | nil => rfl
  | cons a rest ih =>
    unfold item_exists_loop
    cases hk : panel.panel_item_key a with
    | none => rfl
    | some data =>
      have ha : item_id panel a ≠ some s := h a (List.mem_cons_self a rest)
      have hne : data.id ≠ s := by
        intro he
        apply ha
        simp [item_id, hk, he]
      simp only [if_neg hne]
      exact ih (fun w hw => h w (List.mem_cons_of_mem a hw))

theorem item_exists_loop_eq_true (panel : GeditPanel) (s : String) (l : List GtkWidget)
    (hrec : ∀ w ∈ l, (panel.panel_item_key w).isSome = true)
    (h : ∃ w ∈ l, item_id panel w = some s) : item_exists_loop panel s l = true := by
  induction l with
  | nil =>
    obtain ⟨w, hw, _⟩ := h
    cases hw
  | cons a rest ih =>
    unfold item_exists_loop
    cases hk : panel.panel_item_key a with
    | none =>
      have := hrec a (List.mem_cons_self a rest)
      rw [hk] at this
      cases this
    | some data =>
      by_cases he : data.id = s
      · simp [he]
      · simp only [if_neg he]
        apply ih (fun w hw => hrec w (List.mem_cons_of_mem a hw))
        obtain ⟨w, hw, hws⟩ := h
        rcases List.mem_cons.mp hw with hwa | hwr
        · subst hwa
          simp [item_id, hk] at hws
          exact absurd hws he
        · exact ⟨w, hwr, hws⟩

theorem item_exists_eq_false (panel : GeditPanel) (s : String) (h : ¬ id_present panel s) :
    item_exists panel s = false := by
  apply item_exists_loop_eq_false
  intro w hw hs
  exact h ⟨w, hw, hs⟩

theorem item_exists_eq_true (panel : GeditPanel) (s : String) (hv : Valid panel)
    (h : id_present panel s) : item_exists panel s = true :=
  item_exists_loop_eq_true panel s _ hv.has_record h

theorem add_item_fst (panel : GeditPanel) (item : GtkWidget) (id display_name : String)
    (image : Option GtkImage) :
    (gedit_panel_add_item panel item id display_name image).1 = !(item_exists panel id) := by
  unfold gedit_panel_add_item
  cases item_exists panel id <;> simp

theorem add_item_notebook (panel : GeditPanel) (item : GtkWidget) (id display_name : String)
    (image : Option GtkImage) (h : item_exists panel id = false) :
    (gedit_panel_add_item panel item id display_name image).2.notebook =
      (gtk_notebook_append_page_menu panel.notebook item).1 := by
  unfold gedit_panel_add_item
  simp [h]

theorem add_item_panel_item_key (panel : GeditPanel) (item : GtkWidget)
    (id display_name : String) (image : Option GtkImage) (h : item_exists panel id = false) :
    (gedit_panel_add_item panel item id display_name image).2.panel_item_key =
      Function.update panel.panel_item_key item
        (some { id := id, display_name := display_name,
                icon := match image with
                  | none => GtkImage.ICON_NAME "text-x-generic" GtkIconSize.MENU
                  | some image => image }) := by
  unfold gedit_panel_add_item
  simp [h]

theorem append_page_menu_children (nb : GtkNotebook) (child : GtkWidget) :
    (gtk_notebook_append_page_menu nb child).1.children = nb.children ++ [child] := by
  unfold gtk_notebook_append_page_menu
  cases nb.cur_page <;> rfl

/-! ## Notebook operations -/

theorem get_nth_page_mem (nb : GtkNotebook) (page_num : Int) (w : GtkWidget)
    (h : gtk_notebook_get_nth_page nb page_num = some w) : w ∈ nb.children := by
  unfold gtk_notebook_get_nth_page at h
  split at h
  · exact List.mem_of_getLast?_eq_some h
  · exact List.getElem?_mem h

theorem set_current_page_children (nb : GtkNotebook) (page_num : Int) :
    (gtk_notebook_set_current_page nb page_num).1.children = nb.children := by
  unfold gtk_notebook_set_current_page
  split
  · rfl
  · split <;> rfl

theorem set_current_page_cur (nb : GtkNotebook) (page_num : Int) :
    (gtk_notebook_set_current_page nb page_num).1.cur_page = nb.cur_page ∨
      ∃ w ∈ nb.children, (gtk_notebook_set_current_page nb page_num).1.cur_page = some w := by
  unfold gtk_notebook_set_current_page
  split
  · exact Or.inl rfl
  · rename_i w hw
    split
    · exact Or.inl rfl
    · exact Or.inr ⟨w, get_nth_page_mem nb page_num w hw, rfl⟩

theorem set_current_page_page_num (nb : GtkNotebook) (w : GtkWidget) (h : w ∈ nb.children) :
    (gtk_notebook_set_current_page nb (gtk_notebook_page_num nb w)).1.cur_page = some w := by
  unfold gtk_notebook_set_current_page
  rw [get_nth_page_page_num nb w h]
  dsimp only
  split
  · assumption
  · rfl

theorem remove_page_children (nb : GtkNotebook) (w : GtkWidget) (h : w ∈ nb.children) :
    (gtk_notebook_remove_page nb (gtk_notebook_page_num nb w)).1.children =
      nb.children.erase w := by
  unfold gtk_notebook_remove_page
  rw [get_nth_page_page_num nb w h, page_num_of_mem nb w h]
  have h0 : ¬ ((List.indexOf w nb.children : Int) < 0) := by omega
  simp only [h0, if_false, Int.toNat_ofNat, List.eraseIdx_indexOf_eq_erase]
  split
  · split
    · rfl
    · split <;> rfl
  · rfl

theorem remove_page_cur (nb : GtkNotebook) (w : GtkWidget) (h : w ∈ nb.children) :
    (nb.cur_page ≠ some w ∧
        (gtk_notebook_remove_page nb (gtk_notebook_page_num nb w)).1.cur_page = nb.cur_page) ∨
      (nb.children.erase w = [] ∧
        (gtk_notebook_remove_page nb (gtk_notebook_page_num nb w)).1.cur_page = none) ∨
      ∃ c ∈ nb.children.erase w,
        (gtk_notebook_remove_page nb (gtk_notebook_page_num nb w)).1.cur_page = some c := by
  unfold gtk_notebook_remove_page
  rw [get_nth_page_page_num nb w h, page_num_of_mem nb w h]
  have h0 : ¬ ((List.indexOf w nb.children : Int) < 0) := by omega
  simp only [h0, if_false, Int.toNat_ofNat, List.eraseIdx_indexOf_eq_erase]
  split
  · split
    · rename_i next hn
      exact Or.inr (Or.inr ⟨next, List.getElem?_mem hn, rfl⟩)
    · split
      · rename_i prev hp
        exact Or.inr (Or.inr ⟨prev, List.mem_of_getLast?_eq_some hp, rfl⟩)
      · rename_i hl
        exact Or.inr (Or.inl ⟨List.getLast?_eq_none_iff.mp hl, rfl⟩)
  · rename_i hne
    exact Or.inl ⟨hne, rfl⟩

/-! ## Removing and activating -/

theorem remove_item_absent (panel : GeditPanel) (item : GtkWidget)
    (h : item ∉ panel.notebook.children) : gedit_panel_remove_item panel item = (false, panel) := by
  unfold gedit_panel_remove_item
  simp [(page_num_eq_neg_one_iff panel.notebook item).mpr h]

theorem remove_item_present (panel : GeditPanel) (item : GtkWidget)
    (h : item ∈ panel.notebook.children) (hr : (panel.panel_item_key item).isSome = true) :
    (gedit_panel_remove_item panel item).1 = true ∧
      (gedit_panel_remove_item panel item).2.notebook =
        (gtk_notebook_remove_page panel.notebook
          (gtk_notebook_page_num panel.notebook item)).1 ∧
      (gedit_panel_remove_item panel item).2.panel_item_key =
        Function.update panel.panel_item_key item none := by
  have h1 : gtk_notebook_page_num panel.notebook item ≠ -1 := by
    rw [Ne, page_num_eq_neg_one_iff]
    exact not_not.mpr h
  obtain ⟨data, hd⟩ := Option.isSome_iff_exists.mp hr
  unfold gedit_panel_remove_item
  simp only [h1, if_false, hd]
  split <;> simp

theorem activate_item_absent (panel : GeditPanel) (item : GtkWidget)
    (h : item ∉ panel.notebook.children) :
    gedit_panel_activate_item panel item = (false, panel) := by
  unfold gedit_panel_activate_item
  simp [(page_num_eq_neg_one_iff panel.notebook item).mpr h]

theorem activate_item_present (panel : GeditPanel) (item : GtkWidget)
    (h : item ∈ panel.notebook.children) :
    gedit_panel_activate_item panel item =
      (true, notebook_update panel
        (gtk_notebook_set_current_page panel.notebook
          (gtk_notebook_page_num panel.notebook item))) := by
  have h1 : gtk_notebook_page_num panel.notebook item ≠ -1 := by
    rw [Ne, page_num_eq_neg_one_iff]
    exact not_not.mpr h
  unfold gedit_panel_activate_item
  simp [h1]

/-! ## Consistency is kept by every operation -/

theorem valid_new (orientation : GtkOrientation) : Valid (gedit_panel_new orientation) := by
  cases orientation <;>
    exact ⟨List.nodup_nil, fun w hw => (by cases hw), fun c hc => (by cases hc),
      fun h => absurd rfl h⟩

theorem valid_frame (panel panel1 : GeditPanel) (hv : Valid panel)
    (hc : panel1.notebook.children = panel.notebook.children)
    (hk : panel1.panel_item_key = panel.panel_item_key)
    (hcur : panel1.notebook.cur_page = panel.notebook.cur_page ∨
      ∃ w ∈ panel.notebook.children, panel1.notebook.cur_page = some w) : Valid panel1 := by
  refine ⟨?_, ?_, ?_, ?_⟩
  · rw [hc]
    exact hv.nodup
  · rw [hc, hk]
    exact hv.has_record
  · intro c hcc
    rw [hc]
    rcases hcur with h | ⟨w, hw, h⟩
    · rw [h] at hcc
      exact hv.cur_mem c hcc
    · rw [h] at hcc
      cases hcc
      exact hw
  · intro hne
    rw [hc] at hne
    rcases hcur with h | ⟨w, _, h⟩
    · rw [h]
      exact hv.cur_some hne
    · rw [h]
      exact Option.some_ne_none w

theorem unique_ids_frame (panel panel1 : GeditPanel) (hu : UniqueIds panel)
    (hc : panel1.notebook.children = panel.notebook.children)
    (hk : panel1.panel_item_key = panel.panel_item_key) : UniqueIds panel1 := by
  intro w1 h1 w2 h2 he
  rw [hc] at h1 h2
  apply hu w1 h1 w2 h2
  simpa [item_id, hk] using he

theorem valid_set_current_page (panel : GeditPanel) (page_num : Int) (hv : Valid panel) :
    Valid (notebook_update panel (gtk_notebook_set_current_page panel.notebook page_num)) := by
  apply valid_frame panel _ hv
  · rw [notebook_update_notebook]
    exact set_current_page_children _ _
  · exact notebook_update_panel_item_key _ _
  · rw [notebook_update_notebook]
    exact set_current_page_cur _ _

theorem unique_ids_set_current_page (panel : GeditPanel) (page_num : Int)
    (hu : UniqueIds panel) :
    UniqueIds (notebook_update panel (gtk_notebook_set_current_page panel.notebook page_num)) := by
  apply unique_ids_frame panel _ hu
  · rw [notebook_update_notebook]
    exact set_current_page_children _ _
  · exact notebook_update_panel_item_key _ _

theorem activate_item_cases (panel : GeditPanel) (item : GtkWidget) :
    (gedit_panel_activate_item panel item).2 = panel ∨
      ∃ page_num, (gedit_panel_activate_item panel item).2 =
        notebook_update panel (gtk_notebook_set_current_page panel.notebook page_num) := by
  by_cases h : item ∈ panel.notebook.children
  · rw [activate_item_present panel item h]
    exact Or.inr ⟨_, rfl⟩
  · rw [activate_item_absent panel item h]
    exact Or.inl rfl

theorem set_active_item_by_id_loop_cases (panel : GeditPanel) (id : Int) (k : Nat) :
    ∀ i, set_active_item_by_id_loop panel id i k = panel ∨
      ∃ page_num, set_active_item_by_id_loop panel id i k =
        notebook_update panel (gtk_notebook_set_current_page panel.notebook page_num) := by
  induction k with
  | zero =>
    intro i
    exact Or.inl rfl
  | succ k ih =>
    intro i
    unfold set_active_item_by_id_loop
    split
    · exact Or.inl rfl
    · split
      · exact Or.inl rfl
      · split
        · exact Or.inr ⟨_, rfl⟩
        · exact ih (i + 1)

theorem set_active_item_by_id_cases (panel : GeditPanel) (id : Int) :
    _gedit_panel_set_active_item_by_id panel id = panel ∨
      ∃ page_num, _gedit_panel_set_active_item_by_id panel id =
        notebook_update panel (gtk_notebook_set_current_page panel.notebook page_num) := by
  unfold _gedit_panel_set_active_item_by_id
  split
  · exact Or.inl rfl
  · exact set_active_item_by_id_loop_cases panel id _ 0

theorem item_id_update (panel panel1 : GeditPanel) (item w : GtkWidget)
    (v : Option GeditPanelItem)
    (hk : panel1.panel_item_key = Function.update panel.panel_item_key item v) :
    item_id panel1 w = if w = item then v.map (fun data => data.id) else item_id panel w := by
  unfold item_id
  rw [hk]
  by_cases h : w = item
  · subst h
    simp
  · simp [h, Function.update_noteq h]

theorem valid_remove_item (panel : GeditPanel) (item : GtkWidget) (hv : Valid panel) :
    Valid (gedit_panel_remove_item panel item).2 := by
  by_cases h : item ∈ panel.notebook.children
  · obtain ⟨_, hn, hk⟩ := remove_item_present panel item h (hv.has_record item h)
    have hch := remove_page_children panel.notebook item h
    refine ⟨?_, ?_, ?_, ?_⟩
    · rw [hn, hch]
      exact hv.nodup.erase item
    · intro w hw
      rw [hn, hch] at hw
      have hne : w ≠ item := ((List.Nodup.mem_erase_iff hv.nodup).mp hw).1
      rw [hk, Function.update_noteq hne]
      exact hv.has_record w (List.mem_of_mem_erase hw)
    · intro c hc
      rw [hn] at hc
      rw [hn, hch]
      rcases remove_page_cur panel.notebook item h with ⟨hne, he⟩ | ⟨_, he⟩ | ⟨c1, hc1, he⟩
      · rw [he] at hc
        have hcm := hv.cur_mem c hc
        have hci : c ≠ item := by
          intro hci
          apply hne
          rw [hc, hci]
        exact (List.mem_erase_of_ne hci).mpr hcm
      · rw [he] at hc
        cases hc
      · rw [he] at hc
        cases hc
        exact hc1
    · intro hne
      rw [hn, hch] at hne
      rw [hn]
      rcases remove_page_cur panel.notebook item h with ⟨_, he⟩ | ⟨hnil, _⟩ | ⟨c1, _, he⟩
      · rw [he]
        apply hv.cur_some
        intro hnil
        rw [hnil] at h
        cases h
      · exact absurd hnil hne
      · rw [he]
        exact Option.some_ne_none c1
  · rw [remove_item_absent panel item h]
    exact hv

theorem unique_ids_remove_item (panel : GeditPanel) (item : GtkWidget) (hv : Valid panel)
    (hu : UniqueIds panel) : UniqueIds (gedit_panel_remove_item panel item).2 := by
  by_cases h : item ∈ panel.notebook.children
  · obtain ⟨_, hn, hk⟩ := remove_item_present panel item h (hv.has_record item h)
    have hch := remove_page_children panel.notebook item h
    intro w1 h1 w2 h2 he
    rw [hn, hch] at h1 h2
    have hne1 : w1 ≠ item := ((List.Nodup.mem_erase_iff hv.nodup).mp h1).1
    have hne2 : w2 ≠ item := ((List.Nodup.mem_erase_iff hv.nodup).mp h2).1
    rw [item_id_update panel _ item w1 none hk, item_id_update panel _ item w2 none hk,
      if_neg hne1, if_neg hne2] at he
    exact hu w1 (List.mem_of_mem_erase h1) w2 (List.mem_of_mem_erase h2) he
  · rw [remove_item_absent panel item h]
    exact hu

theorem append_page_menu_cur (nb : GtkNotebook) (child : GtkWidget) :
    (nb.cur_page = none ∧ (gtk_notebook_append_page_menu nb child).1.cur_page = some child) ∨
      (nb.cur_page ≠ none ∧
        (gtk_notebook_append_page_menu nb child).1.cur_page = nb.cur_page) := by
  unfold gtk_notebook_append_page_menu
  cases hc : nb.cur_page with
  | none => exact Or.inl ⟨rfl, rfl⟩
  | some c => exact Or.inr ⟨Option.some_ne_none c, rfl⟩

theorem append_page_menu_mem_children (nb : GtkNotebook) (child w : GtkWidget)
    (hw : w ∈ (gtk_notebook_append_page_menu nb child).1.children) :
    w ∈ nb.children ∨ w = child := by
  rw [append_page_menu_children nb child] at hw
  simpa using hw

theorem valid_add_item (panel : GeditPanel) (item : GtkWidget) (id display_name : String)
    (image : Option GtkImage) (hv : Valid panel) (h : item ∉ panel.notebook.children) :
    Valid (gedit_panel_add_item panel item id display_name image).2 := by
  cases hex : item_exists panel id with
  | true =>
    unfold gedit_panel_add_item
    simp only [hex, if_true]
    exact hv
  | false =>
    have hn := add_item_notebook panel item id display_name image hex
    have hk := add_item_panel_item_key panel item id display_name image hex
    have hrec : ∀ w, w ∈ panel.notebook.children ∨ w = item →
        ((gedit_panel_add_item panel item id display_name image).2.panel_item_key w).isSome
          = true := by
      intro w hw
      rw [hk]
      by_cases hwi : w = item
      · subst hwi
        simp
      · rw [Function.update_noteq hwi]
        rcases hw with hw | hw
        · exact hv.has_record w hw
        · exact absurd hw hwi
    have hch := append_page_menu_children panel.notebook item
    refine ⟨?_, ?_, ?_, ?_⟩
    · rw [hn, hch]
      exact List.nodup_append.mpr
        ⟨hv.nodup, List.nodup_singleton item, fun a ha hs => by
          rw [List.mem_singleton.mp hs] at ha
          exact h ha⟩
    · intro w hw
      rw [hn, hch] at hw
      exact hrec w (by simpa using hw)
    · intro c hc
      rw [hn] at hc
      rw [hn, hch]
      rcases append_page_menu_cur panel.notebook item with ⟨_, he⟩ | ⟨_, he⟩
      · rw [he] at hc
        cases hc
        simp
      · rw [he] at hc
        exact List.mem_append_left _ (hv.cur_mem c hc)
    · intro _
      rw [hn]
      rcases append_page_menu_cur panel.notebook item with ⟨_, he⟩ | ⟨hne, he⟩
      · rw [he]
        exact Option.some_ne_none item
      · rw [he]
        exact hne

theorem unique_ids_add_item (panel : GeditPanel) (item : GtkWidget) (id display_name : String)
    (image : Option GtkImage) (hv : Valid panel) (hu : UniqueIds panel) :
    UniqueIds (gedit_panel_add_item panel item id display_name image).2 := by
  cases hex : item_exists panel id with
  | true =>
    unfold gedit_panel_add_item
    simp only [hex, if_true]
    exact hu
  | false =>
    have hn := add_item_notebook panel item id display_name image hex
    have hk := add_item_panel_item_key panel item id display_name image hex
    have hfresh : ∀ w ∈ panel.notebook.children, item_id panel w ≠ some id := by
      intro w hw hs
      have := item_exists_eq_true panel id hv ⟨w, hw, hs⟩
      rw [hex] at this
      cases this
    intro w1 h1 w2 h2 he
    rw [hn] at h1 h2
    have m1 := append_page_menu_mem_children _ _ _ h1
    have m2 := append_page_menu_mem_children _ _ _ h2
    rw [item_id_update panel _ item w1 _ hk, item_id_update panel _ item w2 _ hk] at he
    by_cases e1 : w1 = item
    · by_cases e2 : w2 = item
      · rw [e1, e2]
      · rw [if_pos e1, if_neg e2] at he
        rcases m2 with m2 | m2
        · exact absurd he.symm (hfresh w2 m2)
        · exact absurd m2 e2
    · by_cases e2 : w2 = item
      · rw [if_neg e1, if_pos e2] at he
        rcases m1 with m1 | m1
        · exact absurd he (hfresh w1 m1)
        · exact absurd m1 e1
      · rw [if_neg e1, if_neg e2] at he
        rcases m1 with m1 | m1
        · rcases m2 with m2 | m2
          · exact hu w1 m1 w2 m2 he
          · exact absurd m2 e2
        · exact absurd m1 e1

theorem reachable_fresh_invariant (panel : GeditPanel) (h : ReachableFresh panel) :
    Valid panel ∧ UniqueIds panel := by
  induction h with
  | new orientation =>
    refine ⟨valid_new orientation, ?_⟩
    intro w1 h1
    cases orientation <;> cases h1
  | add_item panel item id display_name image _ hitem ih =>
    exact ⟨valid_add_item panel item id display_name image ih.1 hitem,
      unique_ids_add_item panel item id display_name image ih.1 ih.2⟩
  | add_item_with_stock_icon panel item id display_name stock_id _ hitem ih =>
    unfold gedit_panel_add_item_with_stock_icon
    exact ⟨valid_add_item panel item id display_name _ ih.1 hitem,
      unique_ids_add_item panel item id display_name _ ih.1 ih.2⟩
  | remove_item panel item _ ih =>
    exact ⟨valid_remove_item panel item ih.1, unique_ids_remove_item panel item ih.1 ih.2⟩
  | activate_item panel item _ ih =>
    rcases activate_item_cases panel item with he | ⟨n, he⟩
    · rw [he]
      exact ih
    · rw [he]
      exact ⟨valid_set_current_page panel n ih.1, unique_ids_set_current_page panel n ih.2⟩
  | set_active_item_by_id panel id _ ih =>
    rcases set_active_item_by_id_cases panel id with he | ⟨n, he⟩
    · rw [he]
      exact ih
    · rw [he]
      exact ⟨valid_set_current_page panel n ih.1, unique_ids_set_current_page panel n ih.2⟩

theorem reachable_fresh_unique_ids (panel : GeditPanel) (h : ReachableFresh panel) :
    (panel_ids panel).Nodup ∧
      ∀ w ∈ panel.notebook.children, (item_id panel w).isSome = true := by
  obtain ⟨hv, hu⟩ := reachable_fresh_invariant panel h
  refine ⟨List.Nodup.map_on hu hv.nodup, ?_⟩
  intro w hw
  have := hv.has_record w hw
  unfold item_id
  simpa using this

/-! ## Stable id of the active item -/

theorem hash_fold_lt (l : List UInt8) :
    ∀ acc : Nat, acc < 2 ^ 32 →
      l.foldl (fun h c => (h * 32 + h + signed_char c) % 2 ^ 32) acc < 2 ^ 32 := by
  induction l with
  | nil =>
    intro acc hacc
    exact hacc
  | cons c rest ih =>
    intro acc _
    rw [List.foldl_cons]
    exact ih _ (Nat.mod_lt _ (by norm_num))

theorem g_str_hash_lt (v : String) : g_str_hash v < 2 ^ 32 := by
  unfold g_str_hash
  exact hash_fold_lt _ 5381 (by norm_num)

theorem gint_to_guint_guint_to_gint (h : Nat) (hh : h < 2 ^ 32) :
    gint_to_guint (guint_to_gint h) = h := by
  unfold gint_to_guint guint_to_gint
  rw [Nat.mod_eq_of_lt hh]
  split <;> omega

theorem get_active_item_id_of_active (panel : GeditPanel) (w : GtkWidget) (s : String)
    (hact : gedit_panel_get_active panel = some w) (hid : item_id panel w = some s) :
    _gedit_panel_get_active_item_id panel = guint_to_gint (g_str_hash s) := by
  obtain ⟨hc, hw⟩ := (get_active_eq_some_iff panel w).mp hact
  have h1 : gtk_notebook_page_num panel.notebook w ≠ -1 := by
    rw [Ne, page_num_eq_neg_one_iff]
    exact not_not.mpr hw
  unfold item_id at hid
  obtain ⟨data, hd, hs⟩ := Option.map_eq_some'.mp hid
  unfold _gedit_panel_get_active_item_id
  rw [get_current_page_of_some _ w hc]
  simp only [h1, if_false, get_nth_page_page_num panel.notebook w hw, hd, hs]

theorem set_active_loop_no_match (panel : GeditPanel) (id : Int)
    (hnone : ∀ v ∈ panel.notebook.children, ∀ d, panel.panel_item_key v = some d →
      g_str_hash d.id ≠ gint_to_guint id) (k : Nat) :
    ∀ i, set_active_item_by_id_loop panel id i k = panel := by
  induction k with
  | zero =>
    intro i
    rfl
  | succ k ih =>
    intro i
    unfold set_active_item_by_id_loop
    split
    · rfl
    · rename_i item hitem
      split
      · rfl
      · rename_i data hdata
        rw [if_neg (hnone item (get_nth_page_mem _ _ _ hitem) data hdata)]
        exact ih (i + 1)

theorem set_active_loop_first_match (panel : GeditPanel) (id : Int) (m : Nat) (w : GtkWidget)
    (d : GeditPanelItem) (hw : panel.notebook.children[m]? = some w)
    (hk : panel.panel_item_key w = some d) (hh : g_str_hash d.id = gint_to_guint id)
    (hbefore : ∀ j, j < m → ∃ v e, panel.notebook.children[j]? = some v ∧
      panel.panel_item_key v = some e ∧ g_str_hash e.id ≠ gint_to_guint id) (k : Nat) :
    ∀ i, i ≤ m → m < i + k →
      set_active_item_by_id_loop panel id i k =
        notebook_update panel (gtk_notebook_set_current_page panel.notebook (m : Int)) := by
  induction k with
  | zero =>
    intro i h1 h2
    omega
  | succ k ih =>
    intro i h1 h2
    unfold set_active_item_by_id_loop
    rw [get_nth_page_natCast]
    by_cases him : i = m
    · subst him
      simp only [hw, hk, if_pos hh]
    · have hlt : i < m := by omega
      obtain ⟨v, e, hv, he, hne⟩ := hbefore i hlt
      simp only [hv, he, if_neg hne]
      exact ih (i + 1) (by omega) (by omega)

/-! ## Contract of the public operations -/

/-- C1: when no item in the panel has the id `id`, `gedit_panel_add_item` returns `TRUE` and
the item count afterwards is one more than before, for every widget, display name and image. -/
theorem add_item_fresh_id (panel : GeditPanel) (item : GtkWidget) (id display_name : String)
    (image : Option GtkImage) (hid : ¬ id_present panel id) :
    (gedit_panel_add_item panel item id display_name image).1 = true ∧
      gedit_panel_get_n_items (gedit_panel_add_item panel item id display_name image).2 =
        gedit_panel_get_n_items panel + 1 := by
  have hex := item_exists_eq_false panel id hid
  refine ⟨?_, ?_⟩
  · rw [add_item_fst, hex]
    rfl
  · unfold gedit_panel_get_n_items gtk_notebook_get_n_pages
    rw [add_item_notebook panel item id display_name image hex,
      append_page_menu_children panel.notebook item]
    simp

theorem add_item_fresh_id_witness :
    ¬ id_present panel_a "b" ∧
      (gedit_panel_add_item panel_a 2 "b" "Beta" none).1 = true ∧
      gedit_panel_get_n_items (gedit_panel_add_item panel_a 2 "b" "Beta" none).2 =
        gedit_panel_get_n_items panel_a + 1 :=
  ⟨by decide, add_item_fresh_id panel_a 2 "b" "Beta" none (by decide)⟩

/-- C2: in a consistent panel state in which some item has the id `s`, `gedit_panel_add_item`
with the id `s` returns `FALSE` and the resulting state is the state before the call (items,
order, count, active item and title included), whatever the widget, display name and icon. -/
theorem add_item_duplicate_id (panel : GeditPanel) (item : GtkWidget) (s display_name : String)
    (image : Option GtkImage) (hv : Valid panel) (hs : id_present panel s) :
    gedit_panel_add_item panel item s display_name image = (false, panel) := by
  unfold gedit_panel_add_item
  rw [item_exists_eq_true panel s hv hs]
  rfl

theorem add_item_duplicate_id_witness :
    (Valid panel_ab ∧ id_present panel_ab "a") ∧
      gedit_panel_add_item panel_ab 3 "a" "Again" (some GtkImage.EMPTY) = (false, panel_ab) :=
  ⟨by decide, add_item_duplicate_id panel_ab 3 "a" "Again" (some GtkImage.EMPTY)
    (by decide) (by decide)⟩

/-- C3 does not hold of the code: the id check of `gedit_panel_add_item` looks at the ids
only, not at the widget.  Adding the widget `1` of `panel_a` again under the unused id "b"
overwrites the record stored on the widget and appends a second page, so `panel_twice` has two
pages with the id "b".  After one of them is removed the remaining page of widget `1` has no
record, `item_exists` stops there with `FALSE`, and the distinct widgets `2` and `3` are both
accepted under the id "b" (`panel_same_id`).  Both states are reachable. -/
theorem reachable_duplicate_ids :
    (Reachable panel_twice ∧ panel_ids panel_twice = [some "b", some "b"]) ∧
      (Reachable panel_same_id ∧ panel_same_id.notebook.children = [1, 2, 3] ∧
        item_id panel_same_id 2 = some "b" ∧ item_id panel_same_id 3 = some "b") :=
  have h1 : Reachable panel_a :=
    Reachable.add_item _ 1 "a" "Alpha" none (Reachable.new GtkOrientation.VERTICAL)
  have h2 : Reachable panel_twice := Reachable.add_item _ 1 "b" "Beta" none h1
  have h3 : Reachable panel_same_id :=
    Reachable.add_item _ 3 "b" "Third" none
      (Reachable.add_item _ 2 "b" "Second" none (Reachable.remove_item _ 1 h2))
  ⟨⟨h2, by decide⟩, h3, by decide, by decide, by decide⟩

/-- C4: in a consistent panel state, removing an item `x` that is present returns `TRUE`, the
item count is one less than before, and afterwards `gedit_panel_activate_item` and
`gedit_panel_item_is_active` both return `FALSE` for `x`. -/
theorem remove_item_present_then_absent (panel : GeditPanel) (x : GtkWidget) (hv : Valid panel)
    (hx : x ∈ panel.notebook.children) :
    (gedit_panel_remove_item panel x).1 = true ∧
      gedit_panel_get_n_items (gedit_panel_remove_item panel x).2 =
        gedit_panel_get_n_items panel - 1 ∧
      (gedit_panel_activate_item (gedit_panel_remove_item panel x).2 x).1 = false ∧
      gedit_panel_item_is_active (gedit_panel_remove_item panel x).2 x = false := by
  obtain ⟨hr, hn, _⟩ := remove_item_present panel x hx (hv.has_record x hx)
  have hch : (gedit_panel_remove_item panel x).2.notebook.children =
      panel.notebook.children.erase x := by
    rw [hn]
    exact remove_page_children panel.notebook x hx
  have hgone : x ∉ (gedit_panel_remove_item panel x).2.notebook.children := by
    rw [hch]
    exact List.Nodup.not_mem_erase hv.nodup
  refine ⟨hr, ?_, ?_, ?_⟩
  · unfold gedit_panel_get_n_items gtk_notebook_get_n_pages
    rw [hch, List.length_erase_of_mem hx]
    have hpos : 0 < panel.notebook.children.length := List.length_pos_of_mem hx
    omega
  · rw [activate_item_absent _ x hgone]
  · cases his : gedit_panel_item_is_active (gedit_panel_remove_item panel x).2 x with
    | false => rfl
    | true => exact absurd ((item_is_active_iff _ x).mp his).1 hgone

theorem remove_item_present_then_absent_witness :
    (Valid panel_ab ∧ 1 ∈ panel_ab.notebook.children) ∧
      (gedit_panel_remove_item panel_ab 1).1 = true ∧
      gedit_panel_get_n_items (gedit_panel_remove_item panel_ab 1).2 =
        gedit_panel_get_n_items panel_ab - 1 ∧
      (gedit_panel_activate_item (gedit_panel_remove_item panel_ab 1).2 1).1 = false ∧
      gedit_panel_item_is_active (gedit_panel_remove_item panel_ab 1).2 1 = false :=
  ⟨by decide, remove_item_present_then_absent panel_ab 1 (by decide) (by decide)⟩

/-- C5: removing a widget that is not present in the panel returns `FALSE` and the resulting
state is the state before the call. -/
theorem remove_item_absent_unchanged (panel : GeditPanel) (item : GtkWidget)
    (h : item ∉ panel.notebook.children) :
    gedit_panel_remove_item panel item = (false, panel) :=
  remove_item_absent panel item h

theorem remove_item_absent_unchanged_witness :
    7 ∉ panel_ab.notebook.children ∧ gedit_panel_remove_item panel_ab 7 = (false, panel_ab) :=
  ⟨by decide, remove_item_absent_unchanged panel_ab 7 (by decide)⟩

/-- C6: activating an item `x` that is present returns `TRUE`, and `gedit_panel_get_active`
then returns `x`. -/
theorem activate_item_then_get_active (panel : GeditPanel) (x : GtkWidget)
    (hx : x ∈ panel.notebook.children) :
    (gedit_panel_activate_item panel x).1 = true ∧
      gedit_panel_get_active (gedit_panel_activate_item panel x).2 = some x := by
  rw [activate_item_present panel x hx]
  refine ⟨rfl, ?_⟩
  rw [get_active_eq_some_iff, notebook_update_notebook]
  exact ⟨set_current_page_page_num panel.notebook x hx,
    by rw [set_current_page_children]; exact hx⟩

theorem activate_item_then_get_active_witness :
    2 ∈ panel_ab.notebook.children ∧
      (gedit_panel_activate_item panel_ab 2).1 = true ∧
      gedit_panel_get_active (gedit_panel_activate_item panel_ab 2).2 = some 2 :=
  ⟨by decide, activate_item_then_get_active panel_ab 2 (by decide)⟩

/-- C7, as stated, fails in three ways.  In `panel_collide` the item `2` with id "ab" is active
and present, but restoring its captured stable id activates item `1`, whose id "bA" has the same
hash and which comes first.  In `panel_collide_removed` no item has the id "ab", yet restoring
the stable id captured for "ab" changes the active item from `3` to `1`.  The id "agmtavdw"
has the stable id 0, which `_gedit_panel_set_active_item_by_id` takes for "no item": item `2` of
`panel_zero` is present and is not activated. -/
theorem stable_id_round_trip_counterexample :
    (gedit_panel_get_active panel_collide = some 2 ∧ item_id panel_collide 2 = some "ab" ∧
      gedit_panel_get_active (_gedit_panel_set_active_item_by_id panel_collide
        (_gedit_panel_get_active_item_id panel_collide)) = some 1) ∧
    (¬ id_present panel_collide_removed "ab" ∧
      gedit_panel_get_active panel_collide_removed = some 3 ∧
      gedit_panel_get_active (_gedit_panel_set_active_item_by_id panel_collide_removed
        (_gedit_panel_get_active_item_id panel_collide)) = some 1) ∧
    (gedit_panel_get_active (gedit_panel_activate_item panel_zero 2).2 = some 2 ∧
      item_id panel_zero 2 = some "agmtavdw" ∧
      gedit_panel_get_active (_gedit_panel_set_active_item_by_id panel_zero
        (_gedit_panel_get_active_item_id (gedit_panel_activate_item panel_zero 2).2))
          = some 1) := by
  decide

/-- C7 (amended): let `h` be the stable id captured with `_gedit_panel_get_active_item_id`
while the item with id `s` was active.  In a later consistent state,
`_gedit_panel_set_active_item_by_id h` makes an item `w` with id `s` the active item provided
`h` is not 0 and no page before `w` in tab order has an id with the same hash as `s`; the state
is left unchanged when no item present has an id with the same hash as `s`, and when `h` is 0. -/
theorem stable_id_round_trip (panel0 panel : GeditPanel) (w0 : GtkWidget) (s : String)
    (hact : gedit_panel_get_active panel0 = some w0) (hid : item_id panel0 w0 = some s)
    (hv : Valid panel) :
    (∀ w ∈ panel.notebook.children, item_id panel w = some s →
      _gedit_panel_get_active_item_id panel0 ≠ 0 →
      (∀ v ∈ panel.notebook.children.take (panel.notebook.children.indexOf w),
        item_hash panel v ≠ some (g_str_hash s)) →
      gedit_panel_get_active
        (_gedit_panel_set_active_item_by_id panel (_gedit_panel_get_active_item_id panel0))
          = some w) ∧
    ((∀ v ∈ panel.notebook.children, item_hash panel v ≠ some (g_str_hash s)) →
      _gedit_panel_set_active_item_by_id panel (_gedit_panel_get_active_item_id panel0)
        = panel) ∧
    (_gedit_panel_get_active_item_id panel0 = 0 →
      _gedit_panel_set_active_item_by_id panel (_gedit_panel_get_active_item_id panel0)
        = panel) := by
  have hcap := get_active_item_id_of_active panel0 w0 s hact hid
  have hback : gint_to_guint (_gedit_panel_get_active_item_id panel0) = g_str_hash s := by
    rw [hcap]
    exact gint_to_guint_guint_to_gint _ (g_str_hash_lt s)
  refine ⟨?_, ?_, ?_⟩
  · intro w hw hws hne hfirst
    obtain ⟨d, hd, hds⟩ := Option.map_eq_some'.mp hws
    have hm : panel.notebook.children[panel.notebook.children.indexOf w]? = some w :=
      List.getElem?_indexOf hw
    have hlt : panel.notebook.children.indexOf w < panel.notebook.children.length :=
      List.indexOf_lt_length.mpr hw
    have hbefore : ∀ j, j < panel.notebook.children.indexOf w →
        ∃ v e, panel.notebook.children[j]? = some v ∧ panel.panel_item_key v = some e ∧
          g_str_hash e.id ≠ gint_to_guint (_gedit_panel_get_active_item_id panel0) := by
      intro j hj
      have hjl : j < panel.notebook.children.length := by omega
      have hvj : panel.notebook.children[j]? = some panel.notebook.children[j] :=
        List.getElem?_eq_getElem hjl
      have hmem : panel.notebook.children[j] ∈
          panel.notebook.children.take (panel.notebook.children.indexOf w) := by
        have htake : (panel.notebook.children.take (panel.notebook.children.indexOf w))[j]? =
            some panel.notebook.children[j] := by
          rw [List.getElem?_take_of_lt hj]
          exact hvj
        exact List.getElem?_mem htake
      obtain ⟨e, he⟩ := Option.isSome_iff_exists.mp
        (hv.has_record _ (List.getElem_mem hjl))
      refine ⟨_, e, hvj, he, ?_⟩
      rw [hback]
      intro heq
      apply hfirst _ hmem
      simp [item_hash, item_id, he, heq]
    have hloop := set_active_loop_first_match panel (_gedit_panel_get_active_item_id panel0)
      (panel.notebook.children.indexOf w) w d hm hd (by rw [hds, hback]) hbefore
      panel.notebook.children.length 0 (Nat.zero_le _) (by omega)
    unfold _gedit_panel_set_active_item_by_id
    rw [if_neg hne]
    simp only [gtk_notebook_get_n_pages, Int.toNat_ofNat]
    rw [hloop, ← page_num_of_mem panel.notebook w hw, get_active_eq_some_iff,
      notebook_update_notebook]
    exact ⟨set_current_page_page_num panel.notebook w hw,
      by rw [set_current_page_children]; exact hw⟩
  · intro hnone
    unfold _gedit_panel_set_active_item_by_id
    split
    · rfl
    · apply set_active_loop_no_match
      intro v hvm e he
      rw [hback]
      intro heq
      apply hnone v hvm
      simp [item_hash, item_id, he, heq]
  · intro h0
    unfold _gedit_panel_set_active_item_by_id
    rw [if_pos h0]

theorem stable_id_round_trip_witness :
    (gedit_panel_get_active panel_collide = some 2 ∧ item_id panel_collide 2 = some "ab" ∧
      Valid panel_ab) ∧
    gedit_panel_get_active
      (_gedit_panel_set_active_item_by_id panel_ab
        (_gedit_panel_get_active_item_id panel_collide)) = gedit_panel_get_active panel_ab ∧
    (Valid (gedit_panel_activate_item panel_ab 2).2 ∧
      gedit_panel_get_active panel_ab = some 1 ∧ item_id panel_ab 1 = some "a") ∧
    gedit_panel_get_active
      (_gedit_panel_set_active_item_by_id (gedit_panel_activate_item panel_ab 2).2
        (_gedit_panel_get_active_item_id panel_ab)) = some 1 :=
  ⟨by decide,
    congrArg gedit_panel_get_active
      ((stable_id_round_trip panel_collide panel_ab 2 "ab" (by decide) (by decide)
        (by decide)).2.1 (by decide)),
    by decide,
    (stable_id_round_trip panel_ab (gedit_panel_activate_item panel_ab 2).2 1 "a" (by decide)
      (by decide) (by decide)).1 1 (by decide) (by decide) (by decide) (by decide)⟩

/-- C8: in a consistent panel state whose only item is `x`, after removing `x` the item count
is 0 and `gedit_panel_get_active` returns `NULL`. -/
theorem remove_last_item (panel : GeditPanel) (x : GtkWidget) (hv : Valid panel)
    (h1 : panel.notebook.children = [x]) :
    gedit_panel_get_n_items (gedit_panel_remove_item panel x).2 = 0 ∧
      gedit_panel_get_active (gedit_panel_remove_item panel x).2 = none := by
  have hx : x ∈ panel.notebook.children := by
    rw [h1]
    exact List.mem_singleton_self x
  obtain ⟨_, hn, _⟩ := remove_item_present panel x hx (hv.has_record x hx)
  have hch : (gedit_panel_remove_item panel x).2.notebook.children = [] := by
    rw [hn, remove_page_children panel.notebook x hx, h1]
    simp
  refine ⟨?_, get_active_eq_none_of_nil _ hch⟩
  unfold gedit_panel_get_n_items gtk_notebook_get_n_pages
  rw [hch]
  rfl

theorem remove_last_item_witness :
    (Valid panel_a ∧ panel_a.notebook.children = [1]) ∧
      gedit_panel_get_n_items (gedit_panel_remove_item panel_a 1).2 = 0 ∧
      gedit_panel_get_active (gedit_panel_remove_item panel_a 1).2 = none :=
  ⟨by decide, remove_last_item panel_a 1 (by decide) (by decide)⟩

/-- C9: for a widget that is not present in the panel, `gedit_panel_activate_item` returns
`FALSE` and the resulting state is the state before the call (the active item included), and
`gedit_panel_item_is_active`, a query that has no effect on the state, returns `FALSE`. -/
theorem absent_item_activate_is_active (panel : GeditPanel) (item : GtkWidget)
    (h : item ∉ panel.notebook.children) :
    gedit_panel_activate_item panel item = (false, panel) ∧
      gedit_panel_item_is_active panel item = false := by
  refine ⟨activate_item_absent panel item h, ?_⟩
  cases his : gedit_panel_item_is_active panel item with
  | false => rfl
  | true => exact absurd ((item_is_active_iff panel item).mp his).1 h

theorem absent_item_activate_is_active_witness :
    7 ∉ panel_ab.notebook.children ∧
      gedit_panel_activate_item panel_ab 7 = (false, panel_ab) ∧
      gedit_panel_item_is_active panel_ab 7 = false :=
  ⟨by decide, absent_item_activate_is_active panel_ab 7 (by decide)⟩

/-- C10: `gedit_panel_item_is_active` returns `TRUE` for a widget `w` exactly when `w` is
present in the panel and `gedit_panel_get_active` returns `w`; it is a query and has no effect
on the panel state. -/
theorem item_is_active_iff_get_active (panel : GeditPanel) (w : GtkWidget) :
    gedit_panel_item_is_active panel w = true ↔
      (w ∈ panel.notebook.children ∧ gedit_panel_get_active panel = some w) := by
  rw [item_is_active_iff, get_active_eq_some_iff]
  constructor
  · intro h
    exact ⟨h.1, h.2, h.1⟩
  · intro h
    exact ⟨h.1, h.2.1⟩

/-! ## The title bar under the operations -/

theorem sync_title_shape (panel : GeditPanel) (item : Option GeditPanelItem) :
    (sync_title panel item).orientation = panel.orientation ∧
      (sync_title panel item).title_label.isSome = panel.title_label.isSome ∧
      (sync_title panel item).title_image.isSome = panel.title_image.isSome := by
  unfold sync_title
  split
  · exact ⟨rfl, rfl, rfl⟩
  · cases item <;> simp

theorem notebook_page_changed_shape (panel : GeditPanel) (page_num : Int) :
    (notebook_page_changed panel page_num).orientation = panel.orientation ∧
      (notebook_page_changed panel page_num).title_label.isSome = panel.title_label.isSome ∧
      (notebook_page_changed panel page_num).title_image.isSome =
        panel.title_image.isSome := by
  unfold notebook_page_changed
  split
  · exact ⟨rfl, rfl, rfl⟩
  · split
    · exact ⟨rfl, rfl, rfl⟩
    · exact sync_title_shape _ _

theorem notebook_update_shape (panel : GeditPanel) (r : NotebookResult) :
    (notebook_update panel r).orientation = panel.orientation ∧
      (notebook_update panel r).title_label.isSome = panel.title_label.isSome ∧
      (notebook_update panel r).title_image.isSome = panel.title_image.isSome := by
  unfold notebook_update
  split
  · exact ⟨rfl, rfl, rfl⟩
  · exact notebook_page_changed_shape _ _

theorem title_bar_of_shape (panel panel1 : GeditPanel) (ht : TitleBar panel)
    (h : panel1.orientation = panel.orientation ∧
      panel1.title_label.isSome = panel.title_label.isSome ∧
      panel1.title_image.isSome = panel.title_image.isSome) : TitleBar panel1 := by
  intro hv
  rw [h.1] at hv
  rw [h.2.1, h.2.2]
  exact ht hv

theorem add_item_shape (panel : GeditPanel) (item : GtkWidget) (id display_name : String)
    (image : Option GtkImage) :
    (gedit_panel_add_item panel item id display_name image).2.orientation = panel.orientation ∧
      (gedit_panel_add_item panel item id display_name image).2.title_label.isSome =
        panel.title_label.isSome ∧
      (gedit_panel_add_item panel item id display_name image).2.title_image.isSome =
        panel.title_image.isSome := by
  unfold gedit_panel_add_item
  split
  · exact ⟨rfl, rfl, rfl⟩
  · exact notebook_update_shape _ _

theorem remove_item_shape (panel : GeditPanel) (item : GtkWidget) :
    (gedit_panel_remove_item panel item).2.orientation = panel.orientation ∧
      (gedit_panel_remove_item panel item).2.title_label.isSome = panel.title_label.isSome ∧
      (gedit_panel_remove_item panel item).2.title_image.isSome =
        panel.title_image.isSome := by
  unfold gedit_panel_remove_item
  dsimp only
  split
  · exact ⟨rfl, rfl, rfl⟩
  · split
    · exact ⟨rfl, rfl, rfl⟩
    · split
      · have h1 := sync_title_shape
          (notebook_update
            { panel with panel_item_key := Function.update panel.panel_item_key item none }
            (gtk_notebook_remove_page panel.notebook
              (gtk_notebook_page_num panel.notebook item))) none
        have h2 := notebook_update_shape
          { panel with panel_item_key := Function.update panel.panel_item_key item none }
          (gtk_notebook_remove_page panel.notebook
            (gtk_notebook_page_num panel.notebook item))
        exact ⟨h1.1.trans h2.1, h1.2.1.trans h2.2.1, h1.2.2.trans h2.2.2⟩
      · exact notebook_update_shape
          { panel with panel_item_key := Function.update panel.panel_item_key item none }
          (gtk_notebook_remove_page panel.notebook
            (gtk_notebook_page_num panel.notebook item))

theorem title_bar_new (orientation : GtkOrientation) :
    TitleBar (gedit_panel_new orientation) := by
  cases orientation
  · intro h
    cases h
  · intro _
    exact ⟨rfl, rfl⟩

theorem reachable_title_bar (panel : GeditPanel) (h : Reachable panel) : TitleBar panel := by
  induction h with
  | new orientation => exact title_bar_new orientation
  | add_item panel item id display_name image _ ih =>
    exact title_bar_of_shape panel _ ih (add_item_shape panel item id display_name image)
  | add_item_with_stock_icon panel item id display_name stock_id _ ih =>
    unfold gedit_panel_add_item_with_stock_icon
    exact title_bar_of_shape panel _ ih (add_item_shape panel item id display_name _)
  | remove_item panel item _ ih =>
    exact title_bar_of_shape panel _ ih (remove_item_shape panel item)
  | activate_item panel item _ ih =>
    rcases activate_item_cases panel item with he | ⟨n, he⟩
    · rw [he]
      exact ih
    · rw [he]
      exact title_bar_of_shape panel _ ih (notebook_update_shape panel _)
  | set_active_item_by_id panel id _ ih =>
    rcases set_active_item_by_id_cases panel id with he | ⟨n, he⟩
    · rw [he]
      exact ih
    · rw [he]
      exact title_bar_of_shape panel _ ih (notebook_update_shape panel _)

theorem sync_title_some_vertical (panel : GeditPanel) (item : GeditPanelItem)
    (hv : panel.orientation = GtkOrientation.VERTICAL) :
    (sync_title panel (some item)).title_label =
        panel.title_label.map (fun _ => item.display_name) ∧
      (sync_title panel (some item)).title_image =
        panel.title_image.map (fun image => set_gtk_image_from_gtk_image image item.icon) := by
  unfold sync_title
  rw [if_neg (not_not.mpr hv)]
  exact ⟨rfl, rfl⟩

theorem sync_title_none_vertical (panel : GeditPanel)
    (hv : panel.orientation = GtkOrientation.VERTICAL) :
    (sync_title panel none).title_label = panel.title_label.map (fun _ => "Empty") ∧
      (sync_title panel none).title_image = panel.title_image.map (fun _ => generic_icon) := by
  unfold sync_title
  rw [if_neg (not_not.mpr hv)]
  exact ⟨rfl, rfl⟩

theorem sync_title_not_vertical (panel : GeditPanel) (item : Option GeditPanelItem)
    (h : panel.orientation ≠ GtkOrientation.VERTICAL) : sync_title panel item = panel := by
  unfold sync_title
  rw [if_pos h]

theorem notebook_update_not_vertical (panel : GeditPanel) (r : NotebookResult)
    (h : panel.orientation ≠ GtkOrientation.VERTICAL) :
    (notebook_update panel r).title_label = panel.title_label ∧
      (notebook_update panel r).title_image = panel.title_image := by
  unfold notebook_update
  split
  · exact ⟨rfl, rfl⟩
  · unfold notebook_page_changed
    split
    · exact ⟨rfl, rfl⟩
    · split
      · exact ⟨rfl, rfl⟩
      · rw [sync_title_not_vertical { panel with notebook := r.1 } _ h]
        exact ⟨rfl, rfl⟩

theorem notebook_update_switch (panel : GeditPanel) (nb : GtkNotebook) (n : Int)
    (x : GtkWidget) (d : GeditPanelItem) (hnth : gtk_notebook_get_nth_page nb n = some x)
    (hd : panel.panel_item_key x = some d) :
    notebook_update panel (nb, some n) = sync_title { panel with notebook := nb } (some d) := by
  unfold notebook_update notebook_page_changed
  simp only [hnth, hd]

theorem set_current_page_switch (nb : GtkNotebook) (x : GtkWidget) (hx : x ∈ nb.children)
    (hc : nb.cur_page ≠ some x) :
    gtk_notebook_set_current_page nb (gtk_notebook_page_num nb x) =
      ({ children := nb.children, cur_page := some x }, some (gtk_notebook_page_num nb x)) := by
  unfold gtk_notebook_set_current_page
  rw [get_nth_page_page_num nb x hx]
  have h0 : ¬ gtk_notebook_page_num nb x < 0 := by
    rw [page_num_of_mem nb x hx]
    omega
  simp only [if_neg hc, if_neg h0]

theorem add_item_record (panel : GeditPanel) (item : GtkWidget) (id display_name : String)
    (image : Option GtkImage)
    (hok : (gedit_panel_add_item panel item id display_name image).1 = true) :
    ∃ d, (gedit_panel_add_item panel item id display_name image).2.panel_item_key item = some d ∧
      d.id = id ∧ d.display_name = display_name := by
  have hex : item_exists panel id = false := by
    rw [add_item_fst] at hok
    cases h : item_exists panel id with
    | false => rfl
    | true =>
      rw [h] at hok
      cases hok
  rw [add_item_panel_item_key panel item id display_name image hex]
  exact ⟨_, Function.update_same _ _ _, rfl, rfl⟩

theorem remove_page_not_current (nb : GtkNotebook) (x : GtkWidget) (hx : x ∈ nb.children)
    (hc : nb.cur_page ≠ some x) :
    gtk_notebook_remove_page nb (gtk_notebook_page_num nb x) =
      ({ children := nb.children.erase x, cur_page := nb.cur_page }, none) := by
  unfold gtk_notebook_remove_page
  rw [get_nth_page_page_num nb x hx, page_num_of_mem nb x hx]
  have h0 : ¬ ((List.indexOf x nb.children : Int) < 0) := by omega
  simp only [h0, if_false, Int.toNat_ofNat, List.eraseIdx_indexOf_eq_erase, if_neg hc]

theorem remove_page_current (nb : GtkNotebook) (x : GtkWidget) (hx : x ∈ nb.children)
    (hc : nb.cur_page = some x) (hne : nb.children.erase x ≠ []) :
    ∃ n c, gtk_notebook_remove_page nb (gtk_notebook_page_num nb x) =
        ({ children := nb.children.erase x, cur_page := some c }, some n) ∧
      c ∈ nb.children.erase x ∧
      gtk_notebook_get_nth_page { children := nb.children.erase x, cur_page := some c } n =
        some c := by
  unfold gtk_notebook_remove_page
  rw [get_nth_page_page_num nb x hx, page_num_of_mem nb x hx]
  have h0 : ¬ ((List.indexOf x nb.children : Int) < 0) := by omega
  simp only [h0, if_false, Int.toNat_ofNat, List.eraseIdx_indexOf_eq_erase, if_pos hc]
  cases hnext : (nb.children.erase x)[List.indexOf x nb.children]? with
  | some next =>
    refine ⟨_, next, rfl, List.getElem?_mem hnext, ?_⟩
    rw [get_nth_page_natCast]
    exact hnext
  | none =>
    cases hlast : (nb.children.erase x).getLast? with
    | none => exact absurd (List.getLast?_eq_none_iff.mp hlast) hne
    | some prev =>
      refine ⟨_, prev, rfl, List.mem_of_getLast?_eq_some hlast, ?_⟩
      have hpos : 0 < (nb.children.erase x).length := List.length_pos.mpr hne
      have hcast : ((nb.children.erase x).length : Int) - 1 =
          (((nb.children.erase x).length - 1 : Nat) : Int) := by omega
      rw [hcast, get_nth_page_natCast]
      dsimp only
      rw [← List.getLast?_eq_getElem?]
      exact hlast

theorem remove_item_snd_cases (panel : GeditPanel) (x : GtkWidget)
    (hx : x ∈ panel.notebook.children) (hr : (panel.panel_item_key x).isSome = true) :
    (gtk_notebook_get_n_pages
          (notebook_update
            { panel with panel_item_key := Function.update panel.panel_item_key x none }
            (gtk_notebook_remove_page panel.notebook
              (gtk_notebook_page_num panel.notebook x))).notebook = 0 ∧
        (gedit_panel_remove_item panel x).2 =
          sync_title
            (notebook_update
              { panel with panel_item_key := Function.update panel.panel_item_key x none }
              (gtk_notebook_remove_page panel.notebook
                (gtk_notebook_page_num panel.notebook x))) none) ∨
      (gtk_notebook_get_n_pages
          (notebook_update
            { panel with panel_item_key := Function.update panel.panel_item_key x none }
            (gtk_notebook_remove_page panel.notebook
              (gtk_notebook_page_num panel.notebook x))).notebook ≠ 0 ∧
        (gedit_panel_remove_item panel x).2 =
          notebook_update
            { panel with panel_item_key := Function.update panel.panel_item_key x none }
            (gtk_notebook_remove_page panel.notebook
              (gtk_notebook_page_num panel.notebook x))) := by
  have h1 : gtk_notebook_page_num panel.notebook x ≠ -1 := by
    rw [Ne, page_num_eq_neg_one_iff]
    exact not_not.mpr hx
  obtain ⟨data, hd⟩ := Option.isSome_iff_exists.mp hr
  unfold gedit_panel_remove_item
  simp only [h1, if_false, hd]
  split
  · rename_i h0
    exact Or.inl ⟨h0, rfl⟩
  · rename_i h0
    exact Or.inr ⟨h0, rfl⟩

theorem sync_title_none_title (panel : GeditPanel)
    (hv : panel.orientation = GtkOrientation.VERTICAL)
    (hl : panel.title_label.isSome = true) (hi : panel.title_image.isSome = true) :
    (sync_title panel none).title_label = some "Empty" ∧
      (sync_title panel none).title_image = some generic_icon := by
  obtain ⟨l, hl1⟩ := Option.isSome_iff_exists.mp hl
  obtain ⟨im, hi1⟩ := Option.isSome_iff_exists.mp hi
  have hs := sync_title_none_vertical panel hv
  rw [hs.1, hs.2, hl1, hi1]
  exact ⟨rfl, rfl⟩

theorem sync_title_some_title (panel : GeditPanel) (d : GeditPanelItem) (l : String)
    (im : GtkImage) (hv : panel.orientation = GtkOrientation.VERTICAL)
    (hl : panel.title_label = some l) (hi : panel.title_image = some im) :
    (sync_title panel (some d)).title_label = some d.display_name ∧
      (sync_title panel (some d)).title_image =
        some (set_gtk_image_from_gtk_image im d.icon) := by
  have hs := sync_title_some_vertical panel d hv
  rw [hs.1, hs.2, hl, hi]
  exact ⟨rfl, rfl⟩

/-! ## Tab order and title bar -/

/-- C11: after a successful `gedit_panel_add_item` call the new item is the last item of the
tab order, and the items that were already present keep their order and their positions: the
tab order is the former one followed by the new item. -/
theorem add_item_last (panel : GeditPanel) (item : GtkWidget) (id display_name : String)
    (image : Option GtkImage)
    (hok : (gedit_panel_add_item panel item id display_name image).1 = true) :
    (gedit_panel_add_item panel item id display_name image).2.notebook.children.getLast? =
        some item ∧
      (∀ (i : Nat) (w : GtkWidget), panel.notebook.children[i]? = some w →
        (gedit_panel_add_item panel item id display_name image).2.notebook.children[i]? =
          some w) ∧
      (gedit_panel_add_item panel item id display_name image).2.notebook.children =
        panel.notebook.children ++ [item] := by
  have hex : item_exists panel id = false := by
    rw [add_item_fst] at hok
    cases h : item_exists panel id with
    | false => rfl
    | true =>
      rw [h] at hok
      cases hok
  have hn : (gedit_panel_add_item panel item id display_name image).2.notebook.children =
      panel.notebook.children ++ [item] := by
    rw [add_item_notebook panel item id display_name image hex,
      append_page_menu_children panel.notebook item]
  refine ⟨?_, ?_, hn⟩
  · rw [hn]
    simp
  · intro i w hi
    rw [hn]
    have hlt : i < panel.notebook.children.length := (List.getElem?_eq_some_iff.mp hi).1
    rw [List.getElem?_append_left hlt]
    exact hi

theorem add_item_last_witness :
    (gedit_panel_add_item panel_ab 3 "c" "Gamma" none).1 = true ∧
      (gedit_panel_add_item panel_ab 3 "c" "Gamma" none).2.notebook.children.getLast? =
        some 3 ∧
      (∀ (i : Nat) (w : GtkWidget), panel_ab.notebook.children[i]? = some w →
        (gedit_panel_add_item panel_ab 3 "c" "Gamma" none).2.notebook.children[i]? = some w) ∧
      (gedit_panel_add_item panel_ab 3 "c" "Gamma" none).2.notebook.children =
        panel_ab.notebook.children ++ [3] :=
  ⟨by decide, add_item_last panel_ab 3 "c" "Gamma" none (by decide)⟩

/-- C12: let `x` be an item present in a panel, with the record (display name included) that
`gedit_panel_add_item` stored for it.  In a vertical panel, when `gedit_panel_activate_item`
changes the active tab to `x`, the title label afterwards shows the display name of `x`.  In a
horizontal panel the call changes nothing of the title (label and image). -/
theorem activate_item_title (panel : GeditPanel) (x : GtkWidget) :
    (panel.orientation = GtkOrientation.VERTICAL → TitleBar panel →
      ∀ d, x ∈ panel.notebook.children → panel.panel_item_key x = some d →
        gedit_panel_get_active panel ≠ some x →
        (gedit_panel_activate_item panel x).2.title_label = some d.display_name) ∧
    (panel.orientation = GtkOrientation.HORIZONTAL →
      (gedit_panel_activate_item panel x).2.title_label = panel.title_label ∧
        (gedit_panel_activate_item panel x).2.title_image = panel.title_image) := by
  refine ⟨?_, ?_⟩
  · intro hvert ht d hx hd hact
    have hc : panel.notebook.cur_page ≠ some x := by
      intro hc
      exact hact ((get_active_eq_some_iff panel x).mpr ⟨hc, hx⟩)
    rw [activate_item_present panel x hx, set_current_page_switch panel.notebook x hx hc]
    have hnth : gtk_notebook_get_nth_page
        { children := panel.notebook.children, cur_page := some x }
        (gtk_notebook_page_num panel.notebook x) = some x :=
      get_nth_page_page_num panel.notebook x hx
    dsimp only
    rw [notebook_update_switch panel _ _ x d hnth hd,
      (sync_title_some_vertical
        { panel with notebook := { children := panel.notebook.children, cur_page := some x } }
        d hvert).1]
    obtain ⟨l, hl⟩ := Option.isSome_iff_exists.mp (ht hvert).1
    simp [hl]
  · intro hh
    have hnv : panel.orientation ≠ GtkOrientation.VERTICAL := by
      rw [hh]
      decide
    rcases activate_item_cases panel x with he | ⟨n, he⟩
    · rw [he]
      exact ⟨rfl, rfl⟩
    · rw [he]
      exact notebook_update_not_vertical panel _ hnv

theorem activate_item_title_witness :
    (panel_ab.orientation = GtkOrientation.VERTICAL ∧ TitleBar panel_ab ∧
      2 ∈ panel_ab.notebook.children ∧
      panel_ab.panel_item_key 2 =
        some { id := "b", display_name := "Beta", icon := generic_icon } ∧
      gedit_panel_get_active panel_ab ≠ some 2) ∧
    (gedit_panel_activate_item panel_ab 2).2.title_label = some "Beta" :=
  ⟨by decide,
    (activate_item_title panel_ab 2).1 (by decide) (by decide)
      { id := "b", display_name := "Beta", icon := generic_icon } (by decide) (by decide)
      (by decide)⟩

/-- C13: in a consistent vertical panel, removing a present item `x` has this effect on the
title.  When no item is left, the title label is "Empty" and the title image is the generic
"text-x-generic" icon.  When at least one item is left the title is not reset: it is what it
was before when `x` was not the active item, and it shows the display name and the icon of the
new active item when `x` was the active item. -/
theorem remove_item_title (panel : GeditPanel) (x : GtkWidget)
    (hvert : panel.orientation = GtkOrientation.VERTICAL) (hv : Valid panel)
    (ht : TitleBar panel) (hx : x ∈ panel.notebook.children) :
    (gedit_panel_get_n_items (gedit_panel_remove_item panel x).2 = 0 →
      (gedit_panel_remove_item panel x).2.title_label = some "Empty" ∧
        (gedit_panel_remove_item panel x).2.title_image = some generic_icon) ∧
    (gedit_panel_get_n_items (gedit_panel_remove_item panel x).2 ≠ 0 →
      (gedit_panel_get_active panel ≠ some x →
        (gedit_panel_remove_item panel x).2.title_label = panel.title_label ∧
          (gedit_panel_remove_item panel x).2.title_image = panel.title_image) ∧
      (gedit_panel_get_active panel = some x →
        ∃ a d image,
          gedit_panel_get_active (gedit_panel_remove_item panel x).2 = some a ∧
            (gedit_panel_remove_item panel x).2.panel_item_key a = some d ∧
            panel.title_image = some image ∧
            (gedit_panel_remove_item panel x).2.title_label = some d.display_name ∧
            (gedit_panel_remove_item panel x).2.title_image =
              some (set_gtk_image_from_gtk_image image d.icon))) := by
  obtain ⟨l, hl⟩ := Option.isSome_iff_exists.mp (ht hvert).1
  obtain ⟨im, him⟩ := Option.isSome_iff_exists.mp (ht hvert).2
  have hshape := notebook_update_shape
    { panel with panel_item_key := Function.update panel.panel_item_key x none }
    (gtk_notebook_remove_page panel.notebook (gtk_notebook_page_num panel.notebook x))
  have hchildren := remove_page_children panel.notebook x hx
  rcases remove_item_snd_cases panel x hx (hv.has_record x hx) with ⟨h0, he⟩ | ⟨h0, he⟩
  · refine ⟨?_, ?_⟩
    · intro _
      rw [he]
      exact sync_title_none_title _ (hshape.1.trans hvert) (hshape.2.1.trans (ht hvert).1)
        (hshape.2.2.trans (ht hvert).2)
    · intro hn
      exfalso
      apply hn
      unfold gedit_panel_get_n_items
      rw [he, sync_title_notebook]
      exact h0
  · refine ⟨?_, ?_⟩
    · intro hn
      exfalso
      apply h0
      unfold gedit_panel_get_n_items at hn
      rw [he] at hn
      exact hn
    · intro _
      have hne : panel.notebook.children.erase x ≠ [] := by
        intro hnil
        apply h0
        unfold gtk_notebook_get_n_pages
        rw [notebook_update_notebook, hchildren, hnil]
        rfl
      refine ⟨?_, ?_⟩
      · intro hact
        have hc : panel.notebook.cur_page ≠ some x := by
          intro hc
          exact hact ((get_active_eq_some_iff panel x).mpr ⟨hc, hx⟩)
        rw [he, remove_page_not_current panel.notebook x hx hc]
        exact ⟨rfl, rfl⟩
      · intro hact
        have hc : panel.notebook.cur_page = some x :=
          ((get_active_eq_some_iff panel x).mp hact).1
        obtain ⟨n, c, hrem, hcm, hnth⟩ := remove_page_current panel.notebook x hx hc hne
        have hcx : c ≠ x := ((List.Nodup.mem_erase_iff hv.nodup).mp hcm).1
        obtain ⟨d, hd⟩ := Option.isSome_iff_exists.mp
          (hv.has_record c (List.mem_of_mem_erase hcm))
        have hkey : Function.update panel.panel_item_key x none c = some d := by
          rw [Function.update_noteq hcx]
          exact hd
        have hupd := notebook_update_switch
          { panel with panel_item_key := Function.update panel.panel_item_key x none }
          { children := panel.notebook.children.erase x, cur_page := some c } n c d hnth hkey
        rw [hrem, hupd] at he
        have htitle := sync_title_some_title
          { panel with
            panel_item_key := Function.update panel.panel_item_key x none
            notebook := { children := panel.notebook.children.erase x, cur_page := some c } }
          d l im hvert hl him
        refine ⟨c, d, im, ?_, ?_, him, ?_, ?_⟩
        · rw [he, get_active_eq_some_iff, sync_title_notebook]
          exact ⟨rfl, hcm⟩
        · rw [he, sync_title_panel_item_key]
          exact hkey
        · rw [he]
          exact htitle.1
        · rw [he]
          exact htitle.2

theorem remove_item_title_witness :
    (panel_a.orientation = GtkOrientation.VERTICAL ∧ Valid panel_a ∧ TitleBar panel_a ∧
      1 ∈ panel_a.notebook.children ∧
      gedit_panel_get_n_items (gedit_panel_remove_item panel_a 1).2 = 0) ∧
    ((gedit_panel_remove_item panel_a 1).2.title_label = some "Empty" ∧
      (gedit_panel_remove_item panel_a 1).2.title_image = some generic_icon) ∧
    (panel_ab.orientation = GtkOrientation.VERTICAL ∧ Valid panel_ab ∧ TitleBar panel_ab ∧
      2 ∈ panel_ab.notebook.children ∧
      gedit_panel_get_n_items (gedit_panel_remove_item panel_ab 2).2 ≠ 0 ∧
      gedit_panel_get_active panel_ab ≠ some 2) ∧
    ((gedit_panel_remove_item panel_ab 2).2.title_label = panel_ab.title_label ∧
      (gedit_panel_remove_item panel_ab 2).2.title_image = panel_ab.title_image) :=
  ⟨by decide,
    (remove_item_title panel_a 1 (by decide) (by decide) (by decide) (by decide)).1
      (by decide),
    by decide,
    ((remove_item_title panel_ab 2 (by decide) (by decide) (by decide) (by decide)).2
      (by decide)).1 (by decide)⟩

/-- C14, as stated, fails for the legacy formats: a stock icon and an icon set are copied to the
title image like the other known storage types, they are not replaced by the generic icon.  The
title of `panel_stock`, synchronised from an item added with the stock icon "gtk-open", shows
that stock icon. -/
theorem sync_title_icon_counterexample :
    set_gtk_image_from_gtk_image generic_icon (GtkImage.STOCK "gtk-open" GtkIconSize.MENU) ≠
        generic_icon ∧
      set_gtk_image_from_gtk_image generic_icon (GtkImage.ICON_SET 7 GtkIconSize.MENU) ≠
        generic_icon ∧
      panel_stock.title_image = some (GtkImage.STOCK "gtk-open" GtkIconSize.MENU) := by
  decide

/-- C14 (amended): when the title of a vertical panel is synchronised from an item's icon, a
source of storage type empty, pixbuf, icon name, stock, icon set or animation is copied to the
title image as it is (an empty source clears it); for the remaining storage types (`GIcon`,
surface) the source is ignored and the title image is the generic icon "text-x-generic". -/
theorem sync_title_icon (panel : GeditPanel) (item : GeditPanelItem) (image : GtkImage)
    (hv : panel.orientation = GtkOrientation.VERTICAL) (hi : panel.title_image = some image) :
    (gtk_image_get_storage_type item.icon ∈
        [GtkImageType.GTK_IMAGE_EMPTY, GtkImageType.GTK_IMAGE_PIXBUF,
          GtkImageType.GTK_IMAGE_ICON_NAME, GtkImageType.GTK_IMAGE_STOCK,
          GtkImageType.GTK_IMAGE_ICON_SET, GtkImageType.GTK_IMAGE_ANIMATION] →
      set_gtk_image_from_gtk_image image item.icon = item.icon ∧
        (sync_title panel (some item)).title_image = some item.icon) ∧
    (gtk_image_get_storage_type item.icon ∈
        [GtkImageType.GTK_IMAGE_GICON, GtkImageType.GTK_IMAGE_SURFACE] →
      set_gtk_image_from_gtk_image image item.icon = generic_icon ∧
        (sync_title panel (some item)).title_image = some generic_icon) := by
  rw [(sync_title_some_vertical panel item hv).2, hi]
  cases h : item.icon <;>
    simp [gtk_image_get_storage_type, set_gtk_image_from_gtk_image, generic_icon]

theorem sync_title_icon_witness :
    (panel_a.orientation = GtkOrientation.VERTICAL ∧ panel_a.title_image = some generic_icon) ∧
      (set_gtk_image_from_gtk_image generic_icon (GtkImage.ICON_SET 7 GtkIconSize.MENU) =
          GtkImage.ICON_SET 7 GtkIconSize.MENU ∧
        (sync_title panel_a
            (some { id := "s", display_name := "Set",
                    icon := GtkImage.ICON_SET 7 GtkIconSize.MENU })).title_image =
          some (GtkImage.ICON_SET 7 GtkIconSize.MENU)) ∧
      (set_gtk_image_from_gtk_image generic_icon (GtkImage.SURFACE 3) = generic_icon ∧
        (sync_title panel_a
            (some { id := "s", display_name := "Surface",
                    icon := GtkImage.SURFACE 3 })).title_image = some generic_icon) :=
  ⟨by decide,
    (sync_title_icon panel_a
      { id := "s", display_name := "Set", icon := GtkImage.ICON_SET 7 GtkIconSize.MENU }
      generic_icon (by decide) (by decide)).1 (by decide),
    (sync_title_icon panel_a
      { id := "s", display_name := "Surface", icon := GtkImage.SURFACE 3 }
      generic_icon (by decide) (by decide)).2 (by decide)⟩

end Gedit
